import Mathlib

/-!
Verification of the knhk Reflex Hot-Path Execution Core (C sources under
src/c) against its natural-language specification.

The C code is shallowly embedded:
* uint64 / uint32 values are naturals; reductions modulo 2 ^ 64 / 2 ^ 32 are
  written explicitly at the points where the C arithmetic can wrap;
* caller-owned columnar arrays (S / P / O) are total functions Nat → Nat from
  lane index to stored value; the base addresses of the three columns, which
  the admission controller inspects for 64-byte alignment, are carried as
  separate numeric fields;
* possibly-NULL pointers are Option values; functions that write through an
  out-pointer return the updated value instead;
* the side effects of knhk_generate_span_id and of the PMU cycle counter are
  modelled as explicit oracle arguments (span, pmu_ticks);
* each atomic read-modify-write in the sources is a single linearisation
  step, so a sequential state-passing model captures every interleaving of
  those steps.
-/

set_option maxRecDepth 8000
set_option linter.unusedVariables false

namespace KNHK

/-- Modulus of uint64 arithmetic. -/
def U64 : Nat := 2 ^ 64

/-- Modulus of uint32 arithmetic. -/
def U32 : Nat := 2 ^ 32

/-- KNHK_NROWS from types.h: compile-time fixed hot-path width. -/
def KNHK_NROWS : Nat := 8

/-! ## Receipts (types.h + receipts.h)

The receipt record follows the field set used by knhk_receipt_merge in
receipts.h and by fiber.c, which read an actual_ticks field in addition to
the fields declared in the types.h revision of the struct (the spec notes
the richer shape is the current one; actual_ticks is modelled from those
uses). uint32 fields: ticks, actual_ticks, lanes. uint64 fields: the rest. -/

structure knhk_receipt where
  cycle_id : Nat
  shard_id : Nat
  hook_id : Nat
  ticks : Nat
  actual_ticks : Nat
  lanes : Nat
  span_id : Nat
  a_hash : Nat
deriving DecidableEq, Repr

/-- The all-zero receipt, i.e. \x7b0\x7d / memset 0 in the C sources. -/
def zeroReceipt : knhk_receipt :=
  { cycle_id := 0, shard_id := 0, hook_id := 0, ticks := 0,
    actual_ticks := 0, lanes := 0, span_id := 0, a_hash := 0 }

/-- knhk_receipt_merge from receipts.h: identifiers from the first operand,
max of ticks and actual_ticks, uint32 sum of lanes, XOR of span_id and
a_hash. -/
def knhk_receipt_merge (a b : knhk_receipt) : knhk_receipt :=
  { cycle_id := a.cycle_id
    shard_id := a.shard_id
    hook_id := a.hook_id
    ticks := max a.ticks b.ticks
    actual_ticks := max a.actual_ticks b.actual_ticks
    lanes := (a.lanes + b.lanes) % U32
    span_id := Nat.xor a.span_id b.span_id
    a_hash := Nat.xor a.a_hash b.a_hash }

/-! ## 8-beat epoch scheduler (beat.h / beat.c) -/

/-- knhk_beat_next: atomic fetch-and-add on the global uint64 cycle counter.
The state is the counter value; the call returns the old value and leaves
the incremented value (uint64, so reduced mod 2 ^ 64). -/
def knhk_beat_next (cycle : Nat) : Nat × Nat :=
  (cycle, (cycle + 1) % U64)

/-- knhk_beat_tick: cycle & 0x7. -/
def knhk_beat_tick (cycle : Nat) : Nat :=
  cycle &&& 7

/-- knhk_beat_pulse: branchless ((tick - 1) >> 63) & 1 on uint64, which is 1
exactly when tick = 0. The uint64 underflow of tick - 1 is written out as
arithmetic mod 2 ^ 64. -/
def knhk_beat_pulse (cycle : Nat) : Nat :=
  let tick := cycle &&& 7
  (((tick + U64 - 1) % U64) >>> 63) &&& 1

/-- A trace of n knhk_beat_next calls starting from counter value c: each
call is a single atomic fetch-and-add, so any thread interleaving of n
concurrent callers linearises to exactly such a trace, and the list collects
the returned cycle values in linearisation order. -/
def beatTrace : Nat → Nat → List Nat
  | _, 0 => []
  | c, n + 1 =>
    let step := knhk_beat_next c
    step.1 :: beatTrace step.2 n

/-! ## Admission control (admission.h) -/

/-- knhk_admission_result_t. -/
inductive knhk_admission_result where
  | KNHK_ADMIT_R1
  | KNHK_ADMIT_W1
  | KNHK_ADMIT_C1
  | KNHK_REFUSE
deriving DecidableEq, Repr

export knhk_admission_result (KNHK_ADMIT_R1 KNHK_ADMIT_W1 KNHK_ADMIT_C1 KNHK_REFUSE)

/-- knhk_cache_locality_t; the C int flags take only 0/1 and are Booleans. -/
structure knhk_cache_locality where
  is_l1_hot : Bool
  is_l2_hot : Bool
  is_llc_hot : Bool
  cache_line_addr : Nat
deriving DecidableEq, Repr

/-- knhk_guard_budget_t. -/
structure knhk_guard_budget where
  can_meet_budget : Bool
  estimated_ticks : Nat
  admission : knhk_admission_result
deriving DecidableEq, Repr

/-- Operation codes of knhk_op_t (types.h). -/
def KNHK_OP_ASK_SP : Nat := 1
def KNHK_OP_COUNT_SP_GE : Nat := 2
def KNHK_OP_ASK_SPO : Nat := 3
def KNHK_OP_SELECT_SP : Nat := 4
def KNHK_OP_COUNT_SP_LE : Nat := 5
def KNHK_OP_COUNT_SP_EQ : Nat := 6
def KNHK_OP_ASK_OP : Nat := 7
def KNHK_OP_UNIQUE_SP : Nat := 8
def KNHK_OP_COUNT_OP : Nat := 9
def KNHK_OP_COUNT_OP_LE : Nat := 10
def KNHK_OP_COUNT_OP_EQ : Nat := 11
def KNHK_OP_COMPARE_O_EQ : Nat := 12
def KNHK_OP_COMPARE_O_GT : Nat := 13
def KNHK_OP_COMPARE_O_LT : Nat := 14
def KNHK_OP_COMPARE_O_GE : Nat := 15
def KNHK_OP_COMPARE_O_LE : Nat := 16
def KNHK_OP_VALIDATE_DATATYPE_SP : Nat := 17
def KNHK_OP_VALIDATE_DATATYPE_SPO : Nat := 18
def KNHK_OP_CONSTRUCT8 : Nat := 32

/-- All values of the knhk_op_t enumeration (the recognised operation
codes). -/
def knhkOpCodes : List Nat :=
  [KNHK_OP_ASK_SP, KNHK_OP_COUNT_SP_GE, KNHK_OP_ASK_SPO, KNHK_OP_SELECT_SP,
   KNHK_OP_COUNT_SP_LE, KNHK_OP_COUNT_SP_EQ, KNHK_OP_ASK_OP, KNHK_OP_UNIQUE_SP,
   KNHK_OP_COUNT_OP, KNHK_OP_COUNT_OP_LE, KNHK_OP_COUNT_OP_EQ,
   KNHK_OP_COMPARE_O_EQ, KNHK_OP_COMPARE_O_GT, KNHK_OP_COMPARE_O_LT,
   KNHK_OP_COMPARE_O_GE, KNHK_OP_COMPARE_O_LE, KNHK_OP_VALIDATE_DATATYPE_SP,
   KNHK_OP_VALIDATE_DATATYPE_SPO, KNHK_OP_CONSTRUCT8]

/-- KNHK_OP_MAX from eval_dispatch.h. -/
def KNHK_OP_MAX : Nat := 33

/-- knhk_pred_run_t. -/
structure knhk_pred_run where
  pred : Nat
  off : Nat
  len : Nat
deriving DecidableEq, Repr

/-- knhk_context_t. The three column pointers are split into their numeric
base address (S_addr, ..., inspected by the admission controller) and the
array contents as a function from lane index to value (dereferenced by the
kernels; lane i reads content index run.off + i). -/
structure knhk_context where
  S_addr : Nat
  P_addr : Nat
  O_addr : Nat
  S : Nat → Nat
  P : Nat → Nat
  O : Nat → Nat
  triple_count : Nat
  run : knhk_pred_run

/-- knhk_hook_ir_t. The CONSTRUCT8 output columns are possibly-NULL
pointers, hence Options of array contents. construct8_pattern_hint is the
field read by knhk_eval_construct8 in eval.h (declared in the newer struct
revision the spec singles out; values: 0 generic, 1 all-nonzero, 2..9
len1..len8). -/
structure knhk_hook_ir where
  op : Nat
  s : Nat
  p : Nat
  o : Nat
  k : Nat
  out_S : Option (Nat → Nat)
  out_P : Option (Nat → Nat)
  out_O : Option (Nat → Nat)
  out_mask : Nat
  construct8_pattern_hint : Nat

/-- knhk_check_cache_locality from admission.h, on the three column base
addresses and the run window. The cache-line address computation is uintptr
arithmetic, reduced mod 2 ^ 64. -/
def knhk_check_cache_locality (S_addr P_addr O_addr run_off run_len : Nat) :
    knhk_cache_locality :=
  if run_len > KNHK_NROWS then
    { is_l1_hot := false, is_l2_hot := true, is_llc_hot := false,
      cache_line_addr := 0 }
  else if S_addr % 64 = 0 ∧ P_addr % 64 = 0 ∧ O_addr % 64 = 0 then
    { is_l1_hot := true, is_l2_hot := false, is_llc_hot := false,
      cache_line_addr := (S_addr + run_off * 8) % U64 }
  else
    { is_l1_hot := false, is_l2_hot := true, is_llc_hot := false,
      cache_line_addr := 0 }

/-- The case labels of the simple-operation arm of the switch in
knhk_check_guard_budget (admission.h lines 108-123), in source order.
KNHK_OP_ASK_OP is absent there in the source. -/
def guardBudgetSimpleOps : List Nat :=
  [KNHK_OP_ASK_SP, KNHK_OP_ASK_SPO, KNHK_OP_COUNT_SP_GE, KNHK_OP_COUNT_SP_LE,
   KNHK_OP_COUNT_SP_EQ, KNHK_OP_COMPARE_O_EQ, KNHK_OP_COMPARE_O_GT,
   KNHK_OP_COMPARE_O_LT, KNHK_OP_COMPARE_O_GE, KNHK_OP_COMPARE_O_LE,
   KNHK_OP_VALIDATE_DATATYPE_SP, KNHK_OP_VALIDATE_DATATYPE_SPO,
   KNHK_OP_UNIQUE_SP, KNHK_OP_COUNT_OP, KNHK_OP_COUNT_OP_LE,
   KNHK_OP_COUNT_OP_EQ]

/-- knhk_check_guard_budget from admission.h. The C function receives the
locality struct by pointer; the callers pass the address of a local, so the
NULL-locality branch coincides with the not-L1-hot branch and the argument
is the struct value. ctx is received but unused, as in the source. -/
def knhk_check_guard_budget (ctx : knhk_context) (ir : knhk_hook_ir)
    (locality : knhk_cache_locality) : knhk_guard_budget :=
  if !locality.is_l1_hot then
    { can_meet_budget := false, estimated_ticks := 0, admission := KNHK_REFUSE }
  else if ir.op ∈ guardBudgetSimpleOps then
    { can_meet_budget := true, estimated_ticks := 8, admission := KNHK_ADMIT_R1 }
  else if ir.op = KNHK_OP_CONSTRUCT8 then
    { can_meet_budget := false, estimated_ticks := 41, admission := KNHK_ADMIT_W1 }
  else if ir.op = KNHK_OP_SELECT_SP then
    { can_meet_budget := false, estimated_ticks := 100, admission := KNHK_ADMIT_W1 }
  else
    { can_meet_budget := false, estimated_ticks := 0, admission := KNHK_REFUSE }

/-- knhk_admission_control from admission.h. -/
def knhk_admission_control (ctx : knhk_context) (ir : knhk_hook_ir) :
    knhk_admission_result :=
  let locality := knhk_check_cache_locality ctx.S_addr ctx.P_addr ctx.O_addr
      ctx.run.off ctx.run.len
  let budget := knhk_check_guard_budget ctx ir locality
  if budget.admission = KNHK_ADMIT_R1 ∧ locality.is_l1_hot then
    KNHK_ADMIT_R1
  else if budget.admission = KNHK_ADMIT_W1 ∨
      (!locality.is_l1_hot && locality.is_l2_hot) then
    KNHK_ADMIT_W1
  else if budget.admission = KNHK_ADMIT_C1 ∨
      (!locality.is_l2_hot && locality.is_llc_hot) then
    KNHK_ADMIT_C1
  else
    KNHK_REFUSE

/-! ## SIMD kernel library, NROWS = 8 build (src/c/src/simd/)

Each kernel reads exactly the eight lanes base[off] .. base[off+7]; the
aarch64 / x86_64 / scalar branches in the source agree on this semantics
(an OR / sum / compare reduction over the eight lanes). -/

/-- knhk_eq64_exists_8 from simd/existence.h: OR-reduction of per-lane
equality over the 8 lanes at off. -/
def knhk_eq64_exists_8 (base : Nat → Nat) (off key : Nat) : Bool :=
  (base (off + 0) == key) || (base (off + 1) == key) ||
  (base (off + 2) == key) || (base (off + 3) == key) ||
  (base (off + 4) == key) || (base (off + 5) == key) ||
  (base (off + 6) == key) || (base (off + 7) == key)

/-- knhk_eq64_exists_o_8: same reduction, applied to the O column. -/
def knhk_eq64_exists_o_8 (base : Nat → Nat) (off key : Nat) : Bool :=
  knhk_eq64_exists_8 base off key

/-- knhk_eq64_spo_exists_8 from simd/existence.h: OR-reduction of the
per-lane conjunction of S and O equality. -/
def knhk_eq64_spo_exists_8 (S_base O_base : Nat → Nat)
    (off s_key o_key : Nat) : Bool :=
  ((S_base (off + 0) == s_key) && (O_base (off + 0) == o_key)) ||
  ((S_base (off + 1) == s_key) && (O_base (off + 1) == o_key)) ||
  ((S_base (off + 2) == s_key) && (O_base (off + 2) == o_key)) ||
  ((S_base (off + 3) == s_key) && (O_base (off + 3) == o_key)) ||
  ((S_base (off + 4) == s_key) && (O_base (off + 4) == o_key)) ||
  ((S_base (off + 5) == s_key) && (O_base (off + 5) == o_key)) ||
  ((S_base (off + 6) == s_key) && (O_base (off + 6) == o_key)) ||
  ((S_base (off + 7) == s_key) && (O_base (off + 7) == o_key))

/-- knhk_eq64_count_8 from simd/count.h: number of the 8 lanes equal to
key. -/
def knhk_eq64_count_8 (base : Nat → Nat) (off key : Nat) : Nat :=
  (if base (off + 0) = key then 1 else 0) +
  (if base (off + 1) = key then 1 else 0) +
  (if base (off + 2) = key then 1 else 0) +
  (if base (off + 3) = key then 1 else 0) +
  (if base (off + 4) = key then 1 else 0) +
  (if base (off + 5) = key then 1 else 0) +
  (if base (off + 6) = key then 1 else 0) +
  (if base (off + 7) = key then 1 else 0)

/-- One comparison reduction of knhk_compare_o_8: does some of the 8 lanes
of O at off satisfy cmp against the threshold. -/
def compareReduce8 (O_base : Nat → Nat) (off : Nat) (cmp : Nat → Bool) : Bool :=
  cmp (O_base (off + 0)) || cmp (O_base (off + 1)) ||
  cmp (O_base (off + 2)) || cmp (O_base (off + 3)) ||
  cmp (O_base (off + 4)) || cmp (O_base (off + 5)) ||
  cmp (O_base (off + 6)) || cmp (O_base (off + 7))

/-- knhk_compare_o_8 from simd/compare.h: all five comparison reductions
are computed and the result is mask-selected by op_type (0 EQ, 1 GT, 2 LT,
3 GE, 4 LE; anything else selects no mask and yields false). -/
def knhk_compare_o_8 (O_base : Nat → Nat) (off threshold op_type : Nat) : Bool :=
  let r_eq := compareReduce8 O_base off (fun x => x == threshold)
  let r_gt := compareReduce8 O_base off (fun x => threshold < x)
  let r_lt := compareReduce8 O_base off (fun x => x < threshold)
  let r_ge := compareReduce8 O_base off (fun x => threshold ≤ x)
  let r_le := compareReduce8 O_base off (fun x => x ≤ threshold)
  (r_eq && (op_type == 0)) || (r_gt && (op_type == 1)) ||
  (r_lt && (op_type == 2)) || (r_ge && (op_type == 3)) ||
  (r_le && (op_type == 4))

/-- knhk_validate_datatype_sp_8 from simd/validate.h: OR-reduction of the
per-lane conjunction of subject match and datatype-hash match on O. -/
def knhk_validate_datatype_sp_8 (S_base O_base : Nat → Nat)
    (off s_key datatype_hash : Nat) : Bool :=
  ((S_base (off + 0) == s_key) && (O_base (off + 0) == datatype_hash)) ||
  ((S_base (off + 1) == s_key) && (O_base (off + 1) == datatype_hash)) ||
  ((S_base (off + 2) == s_key) && (O_base (off + 2) == datatype_hash)) ||
  ((S_base (off + 3) == s_key) && (O_base (off + 3) == datatype_hash)) ||
  ((S_base (off + 4) == s_key) && (O_base (off + 4) == datatype_hash)) ||
  ((S_base (off + 5) == s_key) && (O_base (off + 5) == datatype_hash)) ||
  ((S_base (off + 6) == s_key) && (O_base (off + 6) == datatype_hash)) ||
  ((S_base (off + 7) == s_key) && (O_base (off + 7) == datatype_hash))

/-! ## CONSTRUCT8 kernels (simd/construct.h, NROWS = 8 SIMD branches) -/

/-- Number of set bits among the low 8 bits, the popcount the construct
kernels take of their (≤ 8-bit) lane mask. -/
def popcount8 (m : Nat) : Nat :=
  ((m >>> 0) &&& 1) + ((m >>> 1) &&& 1) + ((m >>> 2) &&& 1) +
  ((m >>> 3) &&& 1) + ((m >>> 4) &&& 1) + ((m >>> 5) &&& 1) +
  ((m >>> 6) &&& 1) + ((m >>> 7) &&& 1)

/-- knhk_construct8_emit_8 (generic SIMD variant, also the body of
knhk_construct8_emit_8_with_mask): lane i of the outputs receives
(S[off+i], p_const, o_const) blended against the nonzero-subject mask (zero
lanes emit zeros); the returned lane mask is the nonzero-subject bits ANDed
with ((1 << len) - 1) & 0xFF, and the returned count is its popcount.
Result: (written, out_S, out_P, out_O, out_mask). -/
def knhk_construct8_emit_8 (S_base : Nat → Nat) (off len p_const o_const : Nat)
    (out_S out_P out_O : Nat → Nat) :
    Nat × (Nat → Nat) × (Nat → Nat) × (Nat → Nat) × Nat :=
  let m : Nat → Bool := fun i => S_base (off + i) != 0
  let oS : Nat → Nat := fun j =>
    if j < 8 then (if m j then S_base (off + j) else 0) else out_S j
  let oP : Nat → Nat := fun j =>
    if j < 8 then (if m j then p_const else 0) else out_P j
  let oO : Nat → Nat := fun j =>
    if j < 8 then (if m j then o_const else 0) else out_O j
  let bits :=
    (if m 0 then 1 else 0) + (if m 1 then 2 else 0) + (if m 2 then 4 else 0) +
    (if m 3 then 8 else 0) + (if m 4 then 16 else 0) + (if m 5 then 32 else 0) +
    (if m 6 then 64 else 0) + (if m 7 then 128 else 0)
  let len_mask_bits := ((1 <<< len) - 1) &&& 255
  let mask := bits &&& len_mask_bits
  (popcount8 mask, oS, oP, oO, mask)

/-- knhk_construct8_emit_8_all_nonzero: copies the 8 subject lanes and
broadcasts the constants without masking; the mask is the full length mask
and the count is len. -/
def knhk_construct8_emit_8_all_nonzero (S_base : Nat → Nat)
    (off len p_const o_const : Nat) (out_S out_P out_O : Nat → Nat) :
    Nat × (Nat → Nat) × (Nat → Nat) × (Nat → Nat) × Nat :=
  let oS : Nat → Nat := fun j => if j < 8 then S_base (off + j) else out_S j
  let oP : Nat → Nat := fun j => if j < 8 then p_const else out_P j
  let oO : Nat → Nat := fun j => if j < 8 then o_const else out_O j
  let len_mask_bits := ((1 <<< len) - 1) &&& 255
  (len, oS, oP, oO, len_mask_bits)

/-- KNHK_CONSTRUCT8_PATTERN_MAX (pattern hints 0..9, per the dispatch-table
comment in eval.h). -/
def KNHK_CONSTRUCT8_PATTERN_MAX : Nat := 10

/-- The CONSTRUCT8 dispatch table of eval.h: hint 0 is the generic kernel,
hint 1 the all-nonzero kernel, hints 2..9 the lenN wrappers, which drop the
caller's len and run the generic kernel at the fixed length N = hint - 1. -/
def knhk_construct8_dispatch (hint : Nat) (S_base : Nat → Nat)
    (off len p_const o_const : Nat) (out_S out_P out_O : Nat → Nat) :
    Nat × (Nat → Nat) × (Nat → Nat) × (Nat → Nat) × Nat :=
  if hint = 1 then
    knhk_construct8_emit_8_all_nonzero S_base off len p_const o_const
      out_S out_P out_O
  else if 2 ≤ hint ∧ hint ≤ 9 then
    knhk_construct8_emit_8 S_base off (hint - 1) p_const o_const
      out_S out_P out_O
  else
    knhk_construct8_emit_8 S_base off len p_const o_const out_S out_P out_O

/-! ## Branchless evaluation dispatch (eval_dispatch.c / eval.h)

Each dispatch function returns the int result (0 or 1) and the receipt
value written through the rcpt pointer; span is the value produced by the
knhk_generate_span_id call inside the function. -/

/-- Shape of one table entry of the eval dispatch. -/
def EvalFn : Type :=
  knhk_context → knhk_hook_ir → knhk_receipt → Nat → Nat × knhk_receipt

/-- XOR fold of the five operand words and the result used for a_hash by
the boolean dispatch functions: s ^ p ^ o ^ k ^ result ^ run.pred. -/
def boolOpHash (ir : knhk_hook_ir) (result pred : Nat) : Nat :=
  Nat.xor (Nat.xor (Nat.xor (Nat.xor (Nat.xor ir.s ir.p) ir.o) ir.k) result) pred

/-- Variant of the a_hash fold that also mixes in the lane count, used by
the counting dispatch functions. -/
def countOpHash (ir : knhk_hook_ir) (cnt result pred : Nat) : Nat :=
  Nat.xor (Nat.xor (Nat.xor (Nat.xor (Nat.xor (Nat.xor ir.s ir.p) ir.o) ir.k) cnt) result) pred

/-- knhk_eval_ask_sp: the predicate check is left to eval.h, the kernel
result is returned unmasked. -/
def knhk_eval_ask_sp : EvalFn := fun ctx ir rcpt span =>
  let result := if knhk_eq64_exists_8 ctx.S ctx.run.off ir.s then 1 else 0
  (result,
    { rcpt with lanes := KNHK_NROWS, span_id := span,
                a_hash := boolOpHash ir result ctx.run.pred })

/-- knhk_eval_ask_spo, with its own branchless predicate mask. -/
def knhk_eval_ask_spo : EvalFn := fun ctx ir rcpt span =>
  let result0 := if knhk_eq64_spo_exists_8 ctx.S ctx.O ctx.run.off ir.s ir.o then 1 else 0
  let result := if ir.p = ctx.run.pred then result0 else 0
  (result,
    { rcpt with lanes := KNHK_NROWS, span_id := span,
                a_hash := boolOpHash ir result ctx.run.pred })

/-- knhk_eval_count_sp_ge. -/
def knhk_eval_count_sp_ge : EvalFn := fun ctx ir rcpt span =>
  let cnt := knhk_eq64_count_8 ctx.S ctx.run.off ir.s
  let result0 := if ir.k ≤ cnt then 1 else 0
  let result := if ir.p = ctx.run.pred then result0 else 0
  (result,
    { rcpt with lanes := KNHK_NROWS, span_id := span,
                a_hash := countOpHash ir cnt result ctx.run.pred })

/-- knhk_eval_count_sp_le. -/
def knhk_eval_count_sp_le : EvalFn := fun ctx ir rcpt span =>
  let cnt := knhk_eq64_count_8 ctx.S ctx.run.off ir.s
  let result0 := if cnt ≤ ir.k then 1 else 0
  let result := if ir.p = ctx.run.pred then result0 else 0
  (result,
    { rcpt with lanes := KNHK_NROWS, span_id := span,
                a_hash := countOpHash ir cnt result ctx.run.pred })

/-- knhk_eval_count_sp_eq. -/
def knhk_eval_count_sp_eq : EvalFn := fun ctx ir rcpt span =>
  let cnt := knhk_eq64_count_8 ctx.S ctx.run.off ir.s
  let result0 := if cnt = ir.k then 1 else 0
  let result := if ir.p = ctx.run.pred then result0 else 0
  (result,
    { rcpt with lanes := KNHK_NROWS, span_id := span,
                a_hash := countOpHash ir cnt result ctx.run.pred })

/-- knhk_eval_ask_op: existence of ir.o among the O lanes. -/
def knhk_eval_ask_op : EvalFn := fun ctx ir rcpt span =>
  let result0 := if knhk_eq64_exists_o_8 ctx.O ctx.run.off ir.o then 1 else 0
  let result := if ir.p = ctx.run.pred then result0 else 0
  (result,
    { rcpt with lanes := KNHK_NROWS, span_id := span,
                a_hash := boolOpHash ir result ctx.run.pred })

/-- knhk_eval_unique_sp: count equality against 1. -/
def knhk_eval_unique_sp : EvalFn := fun ctx ir rcpt span =>
  let cnt := knhk_eq64_count_8 ctx.S ctx.run.off ir.s
  let result0 := if cnt = 1 then 1 else 0
  let result := if ir.p = ctx.run.pred then result0 else 0
  (result,
    { rcpt with lanes := KNHK_NROWS, span_id := span,
                a_hash := countOpHash ir cnt result ctx.run.pred })

/-- knhk_eval_count_op. -/
def knhk_eval_count_op : EvalFn := fun ctx ir rcpt span =>
  let cnt := knhk_eq64_count_8 ctx.O ctx.run.off ir.o
  let result0 := if ir.k ≤ cnt then 1 else 0
  let result := if ir.p = ctx.run.pred then result0 else 0
  (result,
    { rcpt with lanes := KNHK_NROWS, span_id := span,
                a_hash := countOpHash ir cnt result ctx.run.pred })

/-- knhk_eval_count_op_le. -/
def knhk_eval_count_op_le : EvalFn := fun ctx ir rcpt span =>
  let cnt := knhk_eq64_count_8 ctx.O ctx.run.off ir.o
  let result0 := if cnt ≤ ir.k then 1 else 0
  let result := if ir.p = ctx.run.pred then result0 else 0
  (result,
    { rcpt with lanes := KNHK_NROWS, span_id := span,
                a_hash := countOpHash ir cnt result ctx.run.pred })

/-- knhk_eval_count_op_eq. -/
def knhk_eval_count_op_eq : EvalFn := fun ctx ir rcpt span =>
  let cnt := knhk_eq64_count_8 ctx.O ctx.run.off ir.o
  let result0 := if cnt = ir.k then 1 else 0
  let result := if ir.p = ctx.run.pred then result0 else 0
  (result,
    { rcpt with lanes := KNHK_NROWS, span_id := span,
                a_hash := countOpHash ir cnt result ctx.run.pred })

/-- One comparison dispatch function (knhk_eval_compare_o_eq .. _le differ
only in the op_type passed to knhk_compare_o_8). -/
def knhk_eval_compare_o (op_type : Nat) : EvalFn := fun ctx ir rcpt span =>
  let result0 := if knhk_compare_o_8 ctx.O ctx.run.off ir.o op_type then 1 else 0
  let result := if ir.p = ctx.run.pred then result0 else 0
  (result,
    { rcpt with lanes := KNHK_NROWS, span_id := span,
                a_hash := boolOpHash ir result ctx.run.pred })

/-- knhk_eval_compare_o_eq. -/
def knhk_eval_compare_o_eq : EvalFn := knhk_eval_compare_o 0
/-- knhk_eval_compare_o_gt. -/
def knhk_eval_compare_o_gt : EvalFn := knhk_eval_compare_o 1
/-- knhk_eval_compare_o_lt. -/
def knhk_eval_compare_o_lt : EvalFn := knhk_eval_compare_o 2
/-- knhk_eval_compare_o_ge. -/
def knhk_eval_compare_o_ge : EvalFn := knhk_eval_compare_o 3
/-- knhk_eval_compare_o_le. -/
def knhk_eval_compare_o_le : EvalFn := knhk_eval_compare_o 4

/-- knhk_eval_validate_datatype_sp. -/
def knhk_eval_validate_datatype_sp : EvalFn := fun ctx ir rcpt span =>
  let result0 := if knhk_validate_datatype_sp_8 ctx.S ctx.O ctx.run.off ir.s ir.o then 1 else 0
  let result := if ir.p = ctx.run.pred then result0 else 0
  (result,
    { rcpt with lanes := KNHK_NROWS, span_id := span,
                a_hash := boolOpHash ir result ctx.run.pred })

/-- knhk_eval_validate_datatype_spo: SPO existence is the hot-path check. -/
def knhk_eval_validate_datatype_spo : EvalFn := fun ctx ir rcpt span =>
  let result0 := if knhk_eq64_spo_exists_8 ctx.S ctx.O ctx.run.off ir.s ir.o then 1 else 0
  let result := if ir.p = ctx.run.pred then result0 else 0
  (result,
    { rcpt with lanes := KNHK_NROWS, span_id := span,
                a_hash := boolOpHash ir result ctx.run.pred })

/-- knhk_eval_noop: zeroes the receipt provenance fields and reports 0. -/
def knhk_eval_noop : EvalFn := fun _ctx _ir rcpt _span =>
  (0, { rcpt with lanes := 0, span_id := 0, a_hash := 0 })

/-- The dispatch table of eval_dispatch.c. Designated initialisers cover
indices 0..18; every other slot of the 33-entry array is a NULL function
pointer, modelled as none (indexing a none and calling it is the C
undefined behaviour). -/
def knhk_eval_dispatch : Nat → Option EvalFn
  | 0 => some knhk_eval_noop
  | 1 => some knhk_eval_ask_sp
  | 2 => some knhk_eval_count_sp_ge
  | 3 => some knhk_eval_ask_spo
  | 4 => some knhk_eval_noop
  | 5 => some knhk_eval_count_sp_le
  | 6 => some knhk_eval_count_sp_eq
  | 7 => some knhk_eval_ask_op
  | 8 => some knhk_eval_unique_sp
  | 9 => some knhk_eval_count_op
  | 10 => some knhk_eval_count_op_le
  | 11 => some knhk_eval_count_op_eq
  | 12 => some knhk_eval_compare_o_eq
  | 13 => some knhk_eval_compare_o_gt
  | 14 => some knhk_eval_compare_o_lt
  | 15 => some knhk_eval_compare_o_ge
  | 16 => some knhk_eval_compare_o_le
  | 17 => some knhk_eval_validate_datatype_sp
  | 18 => some knhk_eval_validate_datatype_spo
  | _ => none

/-- knhk_eval_bool from eval.h: bounds-masked table lookup (ops ≥ KNHK_OP_MAX
fall to index 0, the noop), call of the selected function, then branchless
masking of the result and of the receipt provenance fields by the
predicate-match mask; none models the call through a NULL table slot. -/
def knhk_eval_bool (ctx : knhk_context) (ir : knhk_hook_ir)
    (rcpt : knhk_receipt) (span : Nat) : Option (Nat × knhk_receipt) :=
  let pred_match := ir.p = ctx.run.pred
  let op_idx := if ir.op < KNHK_OP_MAX then ir.op else 0
  match knhk_eval_dispatch op_idx with
  | none => none
  | some fn =>
    let r := fn ctx ir rcpt span
    let result := if pred_match then r.1 else 0
    let final_hash := boolOpHash ir result ctx.run.pred
    some (result,
      { r.2 with lanes := if pred_match then r.2.lanes else 0,
                 span_id := if pred_match then r.2.span_id else 0,
                 a_hash := if pred_match then final_hash else 0 })

/-- knhk_eval_construct8 from eval.h (ctx and ir known non-NULL from the
callers modelled here): guard checks, pattern-hint dispatch into the
construct kernels, write-back of the output columns and mask into the ir,
and the receipt fill. Returns (written, updated ir, updated receipt). -/
def knhk_eval_construct8 (ctx : knhk_context) (ir : knhk_hook_ir)
    (rcpt : knhk_receipt) (span : Nat) : Nat × knhk_hook_ir × knhk_receipt :=
  if ir.op ≠ KNHK_OP_CONSTRUCT8 then (0, ir, rcpt)
  else
    match ir.out_S, ir.out_P, ir.out_O with
    | some oS, some oP, some oO =>
      if ir.p ≠ ctx.run.pred then (0, ir, rcpt)
      else
        let hint := if ir.construct8_pattern_hint < KNHK_CONSTRUCT8_PATTERN_MAX
          then ir.construct8_pattern_hint else 0
        let r := knhk_construct8_dispatch hint ctx.S ctx.run.off ctx.run.len
          ir.p ir.o oS oP oO
        let written := r.1
        let mask := r.2.2.2.2
        let ir2 := { ir with out_S := some r.2.1, out_P := some r.2.2.1,
                             out_O := some r.2.2.2.1, out_mask := mask }
        let rcpt2 :=
          { rcpt with lanes := written % U32, span_id := span,
                      a_hash := Nat.xor (Nat.xor (Nat.xor (Nat.xor ir.s ir.p) ir.o)
                        ctx.run.pred) mask }
        (written, ir2, rcpt2)
    | _, _, _ => (0, ir, rcpt)

/-! ## Batch evaluator (core.c knhk_eval_batch8) -/

/-- The loop body of knhk_eval_batch8: for each hook a zero-initialised
local receipt is produced, CONSTRUCT8 hooks go through knhk_eval_construct8
and every other hook through knhk_eval_bool, the receipt is stored into the
output slot, and the executed counter is incremented, also on logical-false
results. spans feeds the span oracle per hook index. none propagates the
undefined behaviour of a NULL dispatch slot. -/
def batchGo (ctx : knhk_context) (spans : Nat → Nat) :
    Nat → List knhk_hook_ir → Option (Nat × List knhk_hook_ir × List knhk_receipt)
  | _, [] => some (0, [], [])
  | i, ir :: rest =>
    let step : Option (knhk_hook_ir × knhk_receipt) :=
      if ir.op = KNHK_OP_CONSTRUCT8 then
        let r := knhk_eval_construct8 ctx ir zeroReceipt (spans i)
        some (r.2.1, r.2.2)
      else
        match knhk_eval_bool ctx ir zeroReceipt (spans i) with
        | none => none
        | some r => some (ir, r.2)
    match step with
    | none => none
    | some (ir2, rc) =>
      match batchGo ctx spans (i + 1) rest with
      | none => none
      | some r => some (r.1 + 1, ir2 :: r.2.1, rc :: r.2.2)

/-- knhk_eval_batch8 from core.c on a hook array given as a list (n is the
list length; the NULL-pointer guards concern arguments modelled as values
here). Returns (executed, updated hooks, receipts written to rcpts). -/
def knhk_eval_batch8 (ctx : knhk_context) (irs : List knhk_hook_ir)
    (spans : Nat → Nat) : Option (Nat × List knhk_hook_ir × List knhk_receipt) :=
  if irs.length = 0 ∨ irs.length > KNHK_NROWS then some (0, irs, [])
  else batchGo ctx spans 0 irs

/-! ## Fiber execution (fiber.c) -/

/-- knhk_fiber_result_t. -/
inductive knhk_fiber_result where
  | KNHK_FIBER_SUCCESS
  | KNHK_FIBER_PARKED
  | KNHK_FIBER_ERROR
deriving DecidableEq, Repr

export knhk_fiber_result (KNHK_FIBER_SUCCESS KNHK_FIBER_PARKED KNHK_FIBER_ERROR)

/-- The XOR content hash computed at the end of knhk_fiber_execute: over the
8 unrolled lanes, lanes below run.len contribute S[off+i] ^ P[off+i] ^
O[off+i] and the others are masked to 0. -/
def fiberHash (ctx : knhk_context) : Nat :=
  (List.range 8).foldl
    (fun acc i =>
      if i < ctx.run.len then
        Nat.xor acc (Nat.xor (Nat.xor (ctx.S (ctx.run.off + i)) (ctx.P (ctx.run.off + i)))
          (ctx.O (ctx.run.off + i)))
      else acc) 0

/-- The kernel-dispatch step of knhk_fiber_execute: CONSTRUCT8 descriptors
go through knhk_eval_construct8, every other op through knhk_eval_bool;
none models the undefined behaviour of dispatching a NULL table slot (ops
19..31 through knhk_eval_bool). -/
def fiberKernelCall (ctx : knhk_context) (ir : knhk_hook_ir)
    (receipt0 : knhk_receipt) (span2 : Nat) : Option (knhk_hook_ir × knhk_receipt) :=
  if ir.op = KNHK_OP_CONSTRUCT8 then
    let r := knhk_eval_construct8 ctx ir receipt0 span2
    some (r.2.1, r.2.2)
  else
    match knhk_eval_bool ctx ir receipt0 span2 with
    | none => none
    | some r => some (ir, r.2)

/-- The tick bookkeeping, PMU write-back and content-hash stamping at the
end of knhk_fiber_execute, applied to the (ir, receipt) pair the kernel
produced. -/
def fiberCommit (ctx : knhk_context) (is_construct8 : Bool) (pmu_ticks : Nat)
    (p : knhk_hook_ir × knhk_receipt) :
    knhk_fiber_result × Option knhk_hook_ir × Option knhk_receipt :=
  let r1 := p.2
  let estimated0 : Nat := if is_construct8 then 8 else 2
  let receipt_ticks_valid := decide (r1.ticks > KNHK_NROWS) && is_construct8
  let estimated := if receipt_ticks_valid then r1.ticks else estimated0
  let ticks_not_set := decide (r1.ticks = 0) && !is_construct8
  let r2 := { r1 with ticks := if ticks_not_set then estimated else r1.ticks }
  let r3 := { r2 with actual_ticks := pmu_ticks % U32 }
  let r4 := { r3 with ticks := if r3.ticks = 0 then estimated else r3.ticks }
  let r5 := { r4 with a_hash := fiberHash ctx }
  (KNHK_FIBER_SUCCESS, some p.1, some r5)

/-- The branchless input validation of knhk_fiber_execute: any of NULL
ctx, NULL ir, NULL receipt, tick ≥ 8 or run.len > 8 raises the error mask
(the run-length read is guarded by the NULL mask, as with safe_len in the
source). -/
def fiberErrorMask (ctx? : Option knhk_context) (ir? : Option knhk_hook_ir)
    (rcpt? : Option knhk_receipt) (tick : Nat) : Bool :=
  ctx?.isNone || ir?.isNone || rcpt?.isNone || decide (tick ≥ 8) ||
  (match ctx? with
   | none => false
   | some c => decide (c.run.len > KNHK_NROWS))

/-- knhk_fiber_execute from fiber.c: branchless error-mask validation,
receipt initialisation, kernel dispatch, then the fiberCommit bookkeeping.
NULL-able pointer arguments are Options; span1 is the
knhk_generate_span_id value drawn while initialising the receipt, span2
the one drawn inside the kernel evaluation, and pmu_ticks the PMU cycle
measurement. Returns the fiber result with the ir and receipt values
after the call (unchanged on the error path, which fires before any
work). -/
def knhk_fiber_execute (ctx? : Option knhk_context) (ir? : Option knhk_hook_ir)
    (tick cycle_id shard_id hook_id : Nat) (rcpt? : Option knhk_receipt)
    (span1 span2 pmu_ticks : Nat) :
    Option (knhk_fiber_result × Option knhk_hook_ir × Option knhk_receipt) :=
  if fiberErrorMask ctx? ir? rcpt? tick then some (KNHK_FIBER_ERROR, ir?, rcpt?)
  else
    match ctx?, ir?, rcpt? with
    | some ctx, some ir, some _ =>
      let receipt0 : knhk_receipt :=
        { zeroReceipt with cycle_id := cycle_id, shard_id := shard_id,
                           hook_id := hook_id, lanes := ctx.run.len % U32,
                           span_id := span1 }
      (fiberKernelCall ctx ir receipt0 span2).map
        (fiberCommit ctx (decide (ir.op = KNHK_OP_CONSTRUCT8)) pmu_ticks)
    | _, _, _ => some (KNHK_FIBER_ERROR, ir?, rcpt?)

/-! ## Ring buffers (ring.h / ring.c)

The Δ-ring: a power-of-two array in SoA layout shared by 8 per-tick cursor
pairs. The uint64 write/read cursors are modelled as unbounded naturals:
the slot index computation cursor & (size - 1) agrees with the C value
under uint64 wrap because size divides 2 ^ 64, so the model is exact for
histories of fewer than 2 ^ 64 enqueued slots per tick. size_mask is
maintained as size - 1 by knhk_ring_init_delta and is derived here. -/

/-- KNHK_RING_FLAG_PARKED from ring.h. -/
def KNHK_RING_FLAG_PARKED : Nat := 1

/-- KNHK_RING_FLAG_VALID from ring.h. -/
def KNHK_RING_FLAG_VALID : Nat := 2

/-- knhk_delta_ring_t: SoA arrays as functions from slot index to value,
per-tick atomic cursors as functions from tick to counter. -/
structure knhk_delta_ring where
  size : Nat
  write_idx : Nat → Nat
  read_idx : Nat → Nat
  S : Nat → Nat
  P : Nat → Nat
  O : Nat → Nat
  cycle_ids : Nat → Nat
  flags : Nat → Nat

/-- is_power_of_2 from ring.c. -/
def is_power_of_2 (n : Nat) : Bool :=
  decide (n ≠ 0) && (n &&& (n - 1) == 0)

/-- knhk_ring_init_delta: rejects sizes that are not powers of two or are
below 8; otherwise the arrays are zero-initialised and all cursors start
at 0. -/
def knhk_ring_init_delta (size : Nat) : Option knhk_delta_ring :=
  if is_power_of_2 size && decide (size ≥ 8) then
    some { size := size, write_idx := fun _ => 0, read_idx := fun _ => 0,
           S := fun _ => 0, P := fun _ => 0, O := fun _ => 0,
           cycle_ids := fun _ => 0, flags := fun _ => 0 }
  else none

/-- The write loop of knhk_ring_enqueue_delta: slots base_idx + i (masked)
for i < count receive row i and the VALID flag. -/
def ringWriteSlots (base_idx mask : Nat) (S P O : Nat → Nat) (cycle_id : Nat) :
    Nat → knhk_delta_ring → knhk_delta_ring
  | 0, r => r
  | i + 1, r =>
    let r2 := ringWriteSlots base_idx mask S P O cycle_id i r
    let idx := (base_idx + i) &&& mask
    { r2 with S := Function.update r2.S idx (S i),
              P := Function.update r2.P idx (P i),
              O := Function.update r2.O idx (O i),
              cycle_ids := Function.update r2.cycle_ids idx cycle_id,
              flags := Function.update r2.flags idx KNHK_RING_FLAG_VALID }

/-- knhk_ring_enqueue_delta from ring.c: argument guards, fetch-and-add
reservation on the tick's write cursor, overflow check against
read_idx + size with rollback (the rolled-back state equals the input
state), then the slot writes. Returns the C result code and the ring
after the call. -/
def knhk_ring_enqueue_delta (ring : knhk_delta_ring) (tick : Nat)
    (S P O : Nat → Nat) (count cycle_id : Nat) : Int × knhk_delta_ring :=
  if count = 0 ∨ count > KNHK_NROWS ∨ tick ≥ 8 then (-1, ring)
  else
    let write_idx := ring.write_idx tick
    let base_idx := write_idx &&& (ring.size - 1)
    let read_idx := ring.read_idx tick
    if write_idx + count > read_idx + ring.size then (-1, ring)
    else
      let r2 := ringWriteSlots base_idx (ring.size - 1) S P O cycle_id count ring
      (0, { r2 with write_idx := Function.update r2.write_idx tick (write_idx + count) })

/-- The dequeue batch size: the available entries bounded by the caller
capacity and then by KNHK_NROWS, as computed in knhk_ring_dequeue_delta. -/
def deqCount (available capacity : Nat) : Nat :=
  let count0 := if available < capacity then available else capacity
  if count0 > KNHK_NROWS then KNHK_NROWS else count0

/-- The output cursor state threaded through the dequeue read loop. -/
structure DeqSt where
  ring : knhk_delta_ring
  oS : Nat → Nat
  oP : Nat → Nat
  oO : Nat → Nat
  oC : Nat → Nat

/-- The read loop of knhk_ring_dequeue_delta: starting at output position i
with the given remaining iteration budget, copy valid slots out and clear
their flags, stopping at the first slot without the VALID flag. Returns
the final state and the number of slots actually consumed. -/
def deqGo (base_idx mask : Nat) : Nat → Nat → DeqSt → DeqSt × Nat
  | i, 0, st => (st, i)
  | i, rem + 1, st =>
    let idx := (base_idx + i) &&& mask
    if st.ring.flags idx &&& KNHK_RING_FLAG_VALID = 0 then (st, i)
    else
      let st2 : DeqSt :=
        { ring := { st.ring with flags := Function.update st.ring.flags idx 0 },
          oS := Function.update st.oS i (st.ring.S idx),
          oP := Function.update st.oP i (st.ring.P idx),
          oO := Function.update st.oO i (st.ring.O idx),
          oC := Function.update st.oC i (st.ring.cycle_ids idx) }
      deqGo base_idx mask (i + 1) rem st2

/-- knhk_ring_dequeue_delta from ring.c: availability computation capped by
capacity and by KNHK_NROWS, the copy/clear loop that stops at the first
invalid slot, then the unconditional advance of the read cursor by the full
count. Returns the returned count, the four output buffers after the call,
and the ring after the call. -/
def knhk_ring_dequeue_delta (ring : knhk_delta_ring) (tick : Nat)
    (oS oP oO oC : Nat → Nat) (capacity : Nat) :
    Nat × (Nat → Nat) × (Nat → Nat) × (Nat → Nat) × (Nat → Nat) × knhk_delta_ring :=
  if capacity = 0 ∨ tick ≥ 8 then (0, oS, oP, oO, oC, ring)
  else
    let read_idx := ring.read_idx tick
    let write_idx := ring.write_idx tick
    if read_idx ≥ write_idx then (0, oS, oP, oO, oC, ring)
    else
      let available := write_idx - read_idx
      let count := deqCount available capacity
      let base_idx := read_idx &&& (ring.size - 1)
      let st0 : DeqSt := { ring := ring, oS := oS, oP := oP, oO := oO, oC := oC }
      let r := deqGo base_idx (ring.size - 1) 0 count st0
      let rg := r.1.ring
      (count, r.1.oS, r.1.oP, r.1.oO, r.1.oC,
        { rg with read_idx := Function.update rg.read_idx tick (read_idx + count) })

/-- One call against one tick segment of the Δ-ring, for quantifying over
call sequences: an enqueue with its row sources and count, or a dequeue
with its capacity (the caller-supplied output buffers do not affect the
ring state). -/
inductive RingOp where
  | enq (S P O : Nat → Nat) (count cycle_id : Nat)
  | deq (capacity : Nat)

/-- Apply one RingOp to the ring at the given tick, keeping the ring state. -/
def ringStep (tick : Nat) (r : knhk_delta_ring) : RingOp → knhk_delta_ring
  | .enq S P O count cycle_id => (knhk_ring_enqueue_delta r tick S P O count cycle_id).2
  | .deq capacity =>
    (knhk_ring_dequeue_delta r tick (fun _ => 0) (fun _ => 0) (fun _ => 0) (fun _ => 0)
      capacity).2.2.2.2.2

/-- Run a sequence of calls against one tick segment. -/
def ringRun (tick : Nat) : knhk_delta_ring → List RingOp → knhk_delta_ring
  | r, [] => r
  | r, op :: rest => ringRun tick (ringStep tick r op) rest

/-- Cursor sanity of one tick segment: the read cursor is at most the write
cursor, which is at most one full ring ahead. -/
def RingInv (r : knhk_delta_ring) (tick : Nat) : Prop :=
  r.read_idx tick ≤ r.write_idx tick ∧ r.write_idx tick ≤ r.read_idx tick + r.size

/-! ## Shared concrete fixtures for witnesses and counterexamples -/

/-- A context whose S column base address is not 64-byte aligned. -/
def ctxMisaligned : knhk_context :=
  { S_addr := 8, P_addr := 0, O_addr := 0, S := fun _ => 0, P := fun _ => 0,
    O := fun _ => 0, triple_count := 0,
    run := { pred := 0, off := 0, len := 1 } }

/-- A context with all three columns 64-byte aligned and a short run. -/
def ctxAligned : knhk_context :=
  { S_addr := 0, P_addr := 64, O_addr := 128, S := fun _ => 0, P := fun _ => 0,
    O := fun _ => 0, triple_count := 0,
    run := { pred := 0, off := 0, len := 3 } }

/-- A minimal ASK_SP descriptor. -/
def irAskSp : knhk_hook_ir :=
  { op := KNHK_OP_ASK_SP, s := 0, p := 0, o := 0, k := 0, out_S := none,
    out_P := none, out_O := none, out_mask := 0, construct8_pattern_hint := 0 }

/-- A CONSTRUCT8 descriptor (no output buffers attached). -/
def irConstruct8 : knhk_hook_ir :=
  { irAskSp with op := KNHK_OP_CONSTRUCT8 }

/-- A descriptor with an operation code outside the knhk_op_t enumeration. -/
def irUnknownOp : knhk_hook_ir :=
  { irAskSp with op := 99 }

/-! ## C3: the receipt merge monoid -/

/-- C3. knhk_receipt_merge is associative; the merge sums lanes (uint32
addition, hence mod 2 ^ 32), takes the max of ticks and of actual_ticks,
XORs span_id and a_hash, and copies cycle_id, shard_id and hook_id from the
first operand. -/
theorem C3_receipt_merge_monoid (r1 r2 r3 : knhk_receipt) :
    knhk_receipt_merge (knhk_receipt_merge r1 r2) r3 =
      knhk_receipt_merge r1 (knhk_receipt_merge r2 r3) ∧
    (knhk_receipt_merge r1 r2).lanes = (r1.lanes + r2.lanes) % U32 ∧
    (knhk_receipt_merge r1 r2).ticks = max r1.ticks r2.ticks ∧
    (knhk_receipt_merge r1 r2).actual_ticks = max r1.actual_ticks r2.actual_ticks ∧
    (knhk_receipt_merge r1 r2).span_id = Nat.xor r1.span_id r2.span_id ∧
    (knhk_receipt_merge r1 r2).a_hash = Nat.xor r1.a_hash r2.a_hash ∧
    (knhk_receipt_merge r1 r2).cycle_id = r1.cycle_id ∧
    (knhk_receipt_merge r1 r2).shard_id = r1.shard_id ∧
    (knhk_receipt_merge r1 r2).hook_id = r1.hook_id := by
  refine ⟨?_, rfl, rfl, rfl, rfl, rfl, rfl, rfl, rfl⟩
  simp only [knhk_receipt_merge, knhk_receipt.mk.injEq]
  refine ⟨trivial, trivial, trivial, max_assoc _ _ _, max_assoc _ _ _, ?_,
    Nat.xor_assoc _ _ _, Nat.xor_assoc _ _ _⟩
  rw [Nat.mod_add_mod, Nat.add_mod_mod, Nat.add_assoc]

/-! ## C9: total order of the epoch scheduler -/

/-- On a span of the counter that does not cross the uint64 wrap, the trace
of fetch-and-add returns is the arithmetic progression from the initial
counter. -/
theorem beatTrace_eq_range (n : Nat) :
    ∀ c0, c0 + n ≤ U64 → beatTrace c0 n = List.range' c0 n := by
  induction n with
  | zero => intro c0 h; rfl
  | succ m ih =>
    intro c0 h
    show c0 :: beatTrace ((c0 + 1) % U64) m = List.range' c0 (m + 1)
    rw [List.range'_succ]
    congr 1
    rcases Nat.eq_zero_or_pos m with hm | hm
    · subst hm; rfl
    · have hlt : c0 + 1 < U64 := by omega
      rw [Nat.mod_eq_of_lt hlt]
      exact ih (c0 + 1) (by omega)

/-- C9. Each knhk_beat_next call is a single atomic fetch-and-add on the
global cycle counter, so every thread interleaving of n concurrent callers
linearises to beatTrace: as long as the 64-bit counter does not wrap
(c0 + n ≤ 2 ^ 64; the counter starts at 0), the returned cycle values form
the gap-free strictly increasing sequence c0, c0 + 1, ..., duplicate-free,
which is the deterministic total order over fiber executions. -/
theorem C9_beat_next_total_order (c0 n : Nat) (h : c0 + n ≤ U64) :
    beatTrace c0 n = List.range' c0 n ∧
    List.Pairwise (· < ·) (beatTrace c0 n) ∧
    (beatTrace c0 n).Nodup ∧
    ∀ i, i < n → (beatTrace c0 n).getD i 0 = c0 + i := by
  have he := beatTrace_eq_range n c0 h
  refine ⟨he, ?_, ?_, ?_⟩
  · rw [he]; exact List.pairwise_lt_range' c0 n 1 (by omega)
  · rw [he]; exact List.nodup_range' c0 n
  · intro i hi
    rw [he]
    have hl : i < (List.range' c0 n).length := by simpa using hi
    rw [List.getD_eq_getElem _ _ hl, List.getElem_range'_1]

/-- C9 witness: three callers starting from a fresh counter. -/
theorem C9_beat_next_total_order_witness :
    (0 + 3 ≤ U64) ∧
    (beatTrace 0 3 = List.range' 0 3 ∧
     List.Pairwise (· < ·) (beatTrace 0 3) ∧
     (beatTrace 0 3).Nodup ∧
     ∀ i, i < 3 → (beatTrace 0 3).getD i 0 = 0 + i) :=
  ⟨by decide, C9_beat_next_total_order 0 3 (by decide)⟩

/-! ## C1: admission refusal on misalignment or long runs -/

/-- C1. If the three column base addresses are not all 64-byte aligned, or
run.len > 8, then knhk_check_cache_locality reports not-L1-hot and
knhk_admission_control never answers the Hot verdict KNHK_ADMIT_R1 (it
answers KNHK_ADMIT_W1 on these inputs). -/
theorem C1_admission_never_hot_on_misalignment (ctx : knhk_context)
    (ir : knhk_hook_ir)
    (h : ¬(ctx.S_addr % 64 = 0 ∧ ctx.P_addr % 64 = 0 ∧ ctx.O_addr % 64 = 0) ∨
      ctx.run.len > 8) :
    (knhk_check_cache_locality ctx.S_addr ctx.P_addr ctx.O_addr
      ctx.run.off ctx.run.len).is_l1_hot = false ∧
    knhk_admission_control ctx ir ≠ KNHK_ADMIT_R1 := by
  have hloc : knhk_check_cache_locality ctx.S_addr ctx.P_addr ctx.O_addr
      ctx.run.off ctx.run.len =
      { is_l1_hot := false, is_l2_hot := true, is_llc_hot := false,
        cache_line_addr := 0 } := by
    unfold knhk_check_cache_locality
    by_cases hl : ctx.run.len > KNHK_NROWS
    · rw [if_pos hl]
    · rcases h with h | h
      · rw [if_neg hl, if_neg h]
      · exact absurd h (by simpa [KNHK_NROWS] using hl)
  refine ⟨by rw [hloc], ?_⟩
  unfold knhk_admission_control
  rw [hloc]
  simp [knhk_check_guard_budget]

/-- C1 witness: a context whose S column sits at address 8. -/
theorem C1_admission_never_hot_on_misalignment_witness :
    (¬(ctxMisaligned.S_addr % 64 = 0 ∧ ctxMisaligned.P_addr % 64 = 0 ∧
        ctxMisaligned.O_addr % 64 = 0) ∨ ctxMisaligned.run.len > 8) ∧
    ((knhk_check_cache_locality ctxMisaligned.S_addr ctxMisaligned.P_addr
        ctxMisaligned.O_addr ctxMisaligned.run.off
        ctxMisaligned.run.len).is_l1_hot = false ∧
      knhk_admission_control ctxMisaligned irAskSp ≠ KNHK_ADMIT_R1) :=
  ⟨by decide,
   C1_admission_never_hot_on_misalignment ctxMisaligned irAskSp (by decide)⟩

/-! ## C4: CONSTRUCT8 is warm-routed, unknown ops are refused -/

/-- C4. On a context whose columns are 64-byte aligned with run.len ≤ 8,
admission of a CONSTRUCT8 descriptor answers KNHK_ADMIT_W1 and never
KNHK_ADMIT_R1, and admission of a descriptor whose op is not one of the
knhk_op_t codes answers KNHK_REFUSE. -/
theorem C4_admission_construct8_warm_unknown_refused (ctx : knhk_context)
    (ir : knhk_hook_ir) (hS : ctx.S_addr % 64 = 0) (hP : ctx.P_addr % 64 = 0)
    (hO : ctx.O_addr % 64 = 0) (hlen : ctx.run.len ≤ 8) :
    (ir.op = KNHK_OP_CONSTRUCT8 →
      knhk_admission_control ctx ir = KNHK_ADMIT_W1 ∧
      knhk_admission_control ctx ir ≠ KNHK_ADMIT_R1) ∧
    (ir.op ∉ knhkOpCodes → knhk_admission_control ctx ir = KNHK_REFUSE) := by
  have hloc : knhk_check_cache_locality ctx.S_addr ctx.P_addr ctx.O_addr
      ctx.run.off ctx.run.len =
      { is_l1_hot := true, is_l2_hot := false, is_llc_hot := false,
        cache_line_addr := (ctx.S_addr + ctx.run.off * 8) % U64 } := by
    unfold knhk_check_cache_locality
    rw [if_neg (by simp [KNHK_NROWS]; omega), if_pos ⟨hS, hP, hO⟩]
  constructor
  · intro hop
    have hctl : knhk_admission_control ctx ir = KNHK_ADMIT_W1 := by
      unfold knhk_admission_control knhk_check_guard_budget
      rw [hloc, hop]
      simp [guardBudgetSimpleOps, KNHK_OP_ASK_SP, KNHK_OP_ASK_SPO,
        KNHK_OP_COUNT_SP_GE, KNHK_OP_COUNT_SP_LE, KNHK_OP_COUNT_SP_EQ,
        KNHK_OP_COMPARE_O_EQ, KNHK_OP_COMPARE_O_GT, KNHK_OP_COMPARE_O_LT,
        KNHK_OP_COMPARE_O_GE, KNHK_OP_COMPARE_O_LE, KNHK_OP_VALIDATE_DATATYPE_SP,
        KNHK_OP_VALIDATE_DATATYPE_SPO, KNHK_OP_UNIQUE_SP, KNHK_OP_COUNT_OP,
        KNHK_OP_COUNT_OP_LE, KNHK_OP_COUNT_OP_EQ, KNHK_OP_CONSTRUCT8,
        KNHK_OP_SELECT_SP]
    exact ⟨hctl, by rw [hctl]; decide⟩
  · intro hop
    have hops : ir.op ≠ 1 ∧ ir.op ≠ 2 ∧ ir.op ≠ 3 ∧ ir.op ≠ 4 ∧ ir.op ≠ 5 ∧
        ir.op ≠ 6 ∧ ir.op ≠ 7 ∧ ir.op ≠ 8 ∧ ir.op ≠ 9 ∧ ir.op ≠ 10 ∧
        ir.op ≠ 11 ∧ ir.op ≠ 12 ∧ ir.op ≠ 13 ∧ ir.op ≠ 14 ∧ ir.op ≠ 15 ∧
        ir.op ≠ 16 ∧ ir.op ≠ 17 ∧ ir.op ≠ 18 ∧ ir.op ≠ 32 := by
      simp only [knhkOpCodes, KNHK_OP_ASK_SP, KNHK_OP_ASK_SPO,
        KNHK_OP_COUNT_SP_GE, KNHK_OP_COUNT_SP_LE, KNHK_OP_COUNT_SP_EQ,
        KNHK_OP_COMPARE_O_EQ, KNHK_OP_COMPARE_O_GT, KNHK_OP_COMPARE_O_LT,
        KNHK_OP_COMPARE_O_GE, KNHK_OP_COMPARE_O_LE, KNHK_OP_VALIDATE_DATATYPE_SP,
        KNHK_OP_VALIDATE_DATATYPE_SPO, KNHK_OP_UNIQUE_SP, KNHK_OP_COUNT_OP,
        KNHK_OP_COUNT_OP_LE, KNHK_OP_COUNT_OP_EQ, KNHK_OP_CONSTRUCT8,
        KNHK_OP_SELECT_SP, List.mem_cons, List.not_mem_nil, or_false,
        not_or] at hop
      tauto
    obtain ⟨h1, h2, h3, h4, h5, h6, h7, h8, h9, h10, h11, h12, h13, h14, h15,
      h16, h17, h18, h32⟩ := hops
    unfold knhk_admission_control
    rw [hloc]
    simp [knhk_check_guard_budget, guardBudgetSimpleOps, KNHK_OP_ASK_SP,
      KNHK_OP_ASK_SPO, KNHK_OP_COUNT_SP_GE, KNHK_OP_COUNT_SP_LE,
      KNHK_OP_COUNT_SP_EQ, KNHK_OP_COMPARE_O_EQ, KNHK_OP_COMPARE_O_GT,
      KNHK_OP_COMPARE_O_LT, KNHK_OP_COMPARE_O_GE, KNHK_OP_COMPARE_O_LE,
      KNHK_OP_VALIDATE_DATATYPE_SP, KNHK_OP_VALIDATE_DATATYPE_SPO,
      KNHK_OP_UNIQUE_SP, KNHK_OP_COUNT_OP, KNHK_OP_COUNT_OP_LE,
      KNHK_OP_COUNT_OP_EQ, KNHK_OP_CONSTRUCT8, KNHK_OP_SELECT_SP,
      h1, h2, h3, h4, h5, h6, h7, h8, h9, h10, h11, h12, h13, h14, h15, h16,
      h17, h18, h32]

/-- C4 witness: an aligned context with a CONSTRUCT8 descriptor and with a
descriptor carrying the unknown op code 99. -/
theorem C4_admission_construct8_warm_unknown_refused_witness :
    (knhk_admission_control ctxAligned irConstruct8 = KNHK_ADMIT_W1 ∧
      knhk_admission_control ctxAligned irConstruct8 ≠ KNHK_ADMIT_R1) ∧
    knhk_admission_control ctxAligned irUnknownOp = KNHK_REFUSE :=
  ⟨(C4_admission_construct8_warm_unknown_refused ctxAligned irConstruct8
      (by decide) (by decide) (by decide) (by decide)).1 (by decide),
   (C4_admission_construct8_warm_unknown_refused ctxAligned irUnknownOp
      (by decide) (by decide) (by decide) (by decide)).2 (by decide)⟩

/-! ## C8: the end-to-end ASK_SP example -/

/-- The example context: S = [10,20,30,0,0,0,0,0], P all 7, run
\x7bpred 7, off 0, len 3\x7d. -/
def ctxExample : knhk_context :=
  { S_addr := 0, P_addr := 0, O_addr := 0,
    S := fun i => [10, 20, 30, 0, 0, 0, 0, 0].getD i 0,
    P := fun _ => 7, O := fun _ => 0, triple_count := 3,
    run := { pred := 7, off := 0, len := 3 } }

/-- The example descriptor: ASK_SP with s = 20 on predicate 7. -/
def irExample : knhk_hook_ir :=
  { op := KNHK_OP_ASK_SP, s := 20, p := 7, o := 0, k := 0, out_S := none,
    out_P := none, out_O := none, out_mask := 0, construct8_pattern_hint := 0 }

/-- C8. On the example input, knhk_eval_bool returns the true result 1 and a
receipt with lanes = 8 (the full SIMD width) and a_hash = 21, which is the
XOR of (ir.s, ir.p, ir.o, ir.k, result, run.pred) = (20, 7, 0, 0, 1, 7);
span is the span_id oracle and lands in the receipt unchanged. -/
theorem C8_end_to_end_ask_sp (span : Nat) :
    knhk_eval_bool ctxExample irExample zeroReceipt span =
      some (1, { cycle_id := 0, shard_id := 0, hook_id := 0, ticks := 0,
                 actual_ticks := 0, lanes := 8, span_id := span, a_hash := 21 }) ∧
    Nat.xor (Nat.xor (Nat.xor (Nat.xor (Nat.xor irExample.s irExample.p)
      irExample.o) irExample.k) 1) ctxExample.run.pred = 21 := by
  constructor
  · simp only [knhk_eval_bool, knhk_eval_dispatch, ctxExample, irExample,
      KNHK_OP_ASK_SP, KNHK_OP_MAX]
    norm_num [knhk_eval_ask_sp, knhk_eq64_exists_8, boolOpHash, zeroReceipt,
      KNHK_NROWS]
    decide
  · decide

/-! ## C10: the NROWS = 8 kernels evaluate all 8 lanes, ignoring run.len -/

/-- Replace the declared run length of a context, leaving everything else. -/
def setRunLen (ctx : knhk_context) (l : Nat) : knhk_context :=
  { ctx with run := { ctx.run with len := l } }

/-- A context that declares run.len = 1 but whose only subject equal to 99
sits in lane 7, outside the declared run. -/
def ctxLane7 : knhk_context :=
  { S_addr := 0, P_addr := 0, O_addr := 0,
    S := fun i => if i = 7 then 99 else 0,
    P := fun _ => 5, O := fun _ => 0, triple_count := 8,
    run := { pred := 5, off := 0, len := 1 } }

/-- ASK_SP for subject 99 on predicate 5. -/
def irLane7 : knhk_hook_ir :=
  { op := KNHK_OP_ASK_SP, s := 99, p := 5, o := 0, k := 0, out_S := none,
    out_P := none, out_O := none, out_mask := 0, construct8_pattern_hint := 0 }

/-- C10. In the NROWS = 8 build every boolean hot-path dispatch function is
invariant under the declared run.len (the kernels read the fixed 8 lanes at
run.off), and on ctxLane7 - whose run.len is 1 and whose only matching
subject sits in lane 7 ≥ run.len - knhk_eval_bool still answers 1. -/
theorem C10_kernels_ignore_run_len :
    (∀ (ctx : knhk_context) (l : Nat) (ir : knhk_hook_ir) (rcpt : knhk_receipt)
      (span : Nat),
      knhk_eval_ask_sp (setRunLen ctx l) ir rcpt span = knhk_eval_ask_sp ctx ir rcpt span ∧
      knhk_eval_ask_spo (setRunLen ctx l) ir rcpt span = knhk_eval_ask_spo ctx ir rcpt span ∧
      knhk_eval_ask_op (setRunLen ctx l) ir rcpt span = knhk_eval_ask_op ctx ir rcpt span ∧
      knhk_eval_count_sp_ge (setRunLen ctx l) ir rcpt span = knhk_eval_count_sp_ge ctx ir rcpt span ∧
      knhk_eval_count_sp_le (setRunLen ctx l) ir rcpt span = knhk_eval_count_sp_le ctx ir rcpt span ∧
      knhk_eval_count_sp_eq (setRunLen ctx l) ir rcpt span = knhk_eval_count_sp_eq ctx ir rcpt span ∧
      knhk_eval_unique_sp (setRunLen ctx l) ir rcpt span = knhk_eval_unique_sp ctx ir rcpt span ∧
      knhk_eval_count_op (setRunLen ctx l) ir rcpt span = knhk_eval_count_op ctx ir rcpt span ∧
      knhk_eval_count_op_le (setRunLen ctx l) ir rcpt span = knhk_eval_count_op_le ctx ir rcpt span ∧
      knhk_eval_count_op_eq (setRunLen ctx l) ir rcpt span = knhk_eval_count_op_eq ctx ir rcpt span ∧
      (∀ op_type, knhk_eval_compare_o op_type (setRunLen ctx l) ir rcpt span =
        knhk_eval_compare_o op_type ctx ir rcpt span) ∧
      knhk_eval_validate_datatype_sp (setRunLen ctx l) ir rcpt span =
        knhk_eval_validate_datatype_sp ctx ir rcpt span ∧
      knhk_eval_validate_datatype_spo (setRunLen ctx l) ir rcpt span =
        knhk_eval_validate_datatype_spo ctx ir rcpt span) ∧
    (ctxLane7.run.len = 1 ∧ ctxLane7.S 7 = irLane7.s ∧
      (∀ i, i < 7 → ctxLane7.S i ≠ irLane7.s) ∧
      (knhk_eval_bool ctxLane7 irLane7 zeroReceipt 0).map Prod.fst = some 1) := by
  refine ⟨fun ctx l ir rcpt span =>
    ⟨rfl, rfl, rfl, rfl, rfl, rfl, rfl, rfl, rfl, rfl, fun op_type => rfl, rfl, rfl⟩,
    rfl, rfl, ?_, rfl⟩
  decide

/-! ## C6: the fiber rejects malformed inputs before any work -/

/-- C6. A malformed invocation of knhk_fiber_execute - NULL ctx, NULL ir,
NULL receipt, tick ≥ 8, or run.len > 8 - returns KNHK_FIBER_ERROR with the
caller-supplied ir and receipt values unchanged: no kernel runs and the
receipt is not written. -/
theorem C6_fiber_execute_rejects_malformed (ctx? : Option knhk_context)
    (ir? : Option knhk_hook_ir) (rcpt? : Option knhk_receipt)
    (tick cycle_id shard_id hook_id span1 span2 pmu_ticks : Nat)
    (h : ctx? = none ∨ ir? = none ∨ rcpt? = none ∨ 8 ≤ tick ∨
      ∃ c, ctx? = some c ∧ c.run.len > 8) :
    knhk_fiber_execute ctx? ir? tick cycle_id shard_id hook_id rcpt?
      span1 span2 pmu_ticks = some (KNHK_FIBER_ERROR, ir?, rcpt?) := by
  rcases h with h | h | h | h | ⟨c, hc, hlen⟩
  · subst h
    simp [knhk_fiber_execute, fiberErrorMask]
  · subst h
    simp [knhk_fiber_execute, fiberErrorMask]
  · subst h
    simp [knhk_fiber_execute, fiberErrorMask]
  · have hm : fiberErrorMask ctx? ir? rcpt? tick = true := by
      simp [fiberErrorMask, h]
    simp [knhk_fiber_execute, hm]
  · subst hc
    have hm : fiberErrorMask (some c) ir? rcpt? tick = true := by
      simp [fiberErrorMask, KNHK_NROWS, hlen]
    simp [knhk_fiber_execute, hm]

/-- C6 witness: a well-formed context handed to the fiber with an
out-of-range tick value. -/
theorem C6_fiber_execute_rejects_malformed_witness :
    knhk_fiber_execute (some ctxAligned) (some irAskSp) 9 0 0 0
      (some zeroReceipt) 0 0 0 =
      some (KNHK_FIBER_ERROR, some irAskSp, some zeroReceipt) :=
  C6_fiber_execute_rejects_malformed (some ctxAligned) (some irAskSp)
    (some zeroReceipt) 9 0 0 0 0 0 0 (by right; right; right; left; decide)

/-! ## C7: the batch evaluator executes and receipts every descriptor -/

/-- Membership in the knhk_op_t code list splits into the 19 concrete
codes. -/
theorem opCode_cases {op : Nat} (h : op ∈ knhkOpCodes) :
    op = 1 ∨ op = 2 ∨ op = 3 ∨ op = 4 ∨ op = 5 ∨ op = 6 ∨ op = 7 ∨ op = 8 ∨
    op = 9 ∨ op = 10 ∨ op = 11 ∨ op = 12 ∨ op = 13 ∨ op = 14 ∨ op = 15 ∨
    op = 16 ∨ op = 17 ∨ op = 18 ∨ op = 32 := by
  simpa [knhkOpCodes, KNHK_OP_ASK_SP, KNHK_OP_ASK_SPO, KNHK_OP_COUNT_SP_GE,
    KNHK_OP_COUNT_SP_LE, KNHK_OP_COUNT_SP_EQ, KNHK_OP_COMPARE_O_EQ,
    KNHK_OP_COMPARE_O_GT, KNHK_OP_COMPARE_O_LT, KNHK_OP_COMPARE_O_GE,
    KNHK_OP_COMPARE_O_LE, KNHK_OP_VALIDATE_DATATYPE_SP,
    KNHK_OP_VALIDATE_DATATYPE_SPO, KNHK_OP_UNIQUE_SP, KNHK_OP_COUNT_OP,
    KNHK_OP_COUNT_OP_LE, KNHK_OP_COUNT_OP_EQ, KNHK_OP_CONSTRUCT8,
    KNHK_OP_SELECT_SP] using h

/-- For any non-CONSTRUCT8 enum op the eval dispatch slot is initialised (no
NULL call), so knhk_eval_bool produces a value. -/
theorem evalBool_isSome (ctx : knhk_context) (ir : knhk_hook_ir)
    (rcpt : knhk_receipt) (span : Nat) (hop : ir.op ∈ knhkOpCodes)
    (hne : ir.op ≠ KNHK_OP_CONSTRUCT8) :
    (knhk_eval_bool ctx ir rcpt span).isSome := by
  rcases opCode_cases hop with h | h | h | h | h | h | h | h | h | h | h | h |
    h | h | h | h | h | h | h
  all_goals first
    | exact absurd h hne
    | (unfold knhk_eval_bool; rw [h]; rfl)

/-- The batch loop succeeds on every list of enum-op descriptors and counts
and receipts each of them. -/
theorem batchGo_executes_all (ctx : knhk_context) (spans : Nat → Nat) :
    ∀ (irs : List knhk_hook_ir) (i : Nat),
      (∀ ir ∈ irs, ir.op ∈ knhkOpCodes) →
      ∃ out, batchGo ctx spans i irs = some out ∧ out.1 = irs.length ∧
        out.2.2.length = irs.length := by
  intro irs
  induction irs with
  | nil => exact fun i _ => ⟨(0, [], []), rfl, rfl, rfl⟩
  | cons ir rest ih =>
    intro i hops
    have hop : ir.op ∈ knhkOpCodes := hops ir (List.mem_cons_self ir rest)
    obtain ⟨out, hout, hlen, hrc⟩ :=
      ih (i + 1) fun x hx => hops x (List.mem_cons_of_mem ir hx)
    by_cases hc8 : ir.op = KNHK_OP_CONSTRUCT8
    · refine ⟨(out.1 + 1,
        (knhk_eval_construct8 ctx ir zeroReceipt (spans i)).2.1 :: out.2.1,
        (knhk_eval_construct8 ctx ir zeroReceipt (spans i)).2.2 :: out.2.2),
        ?_, ?_, ?_⟩
      · unfold batchGo
        rw [if_pos hc8, hout]
      · simp [hlen]
      · simp [hrc]
    · obtain ⟨r, hr⟩ := Option.isSome_iff_exists.mp
        (evalBool_isSome ctx ir zeroReceipt (spans i) hop hc8)
      refine ⟨(out.1 + 1, ir :: out.2.1, r.2 :: out.2.2), ?_, ?_, ?_⟩
      · unfold batchGo
        rw [if_neg hc8, hr, hout]
      · simp [hlen]
      · simp [hrc]

/-- C7. For every context and every list of 1..8 descriptors whose op codes
are knhk_op_t values, knhk_eval_batch8 completes, its return value counts
every descriptor (executed = n), and it writes one receipt per descriptor
into the output array - also for descriptors whose logical result is 0. -/
theorem C7_batch8_counts_and_receipts_all (ctx : knhk_context)
    (irs : List knhk_hook_ir) (spans : Nat → Nat) (h1 : 1 ≤ irs.length)
    (h2 : irs.length ≤ 8) (hops : ∀ ir ∈ irs, ir.op ∈ knhkOpCodes) :
    ∃ out, knhk_eval_batch8 ctx irs spans = some out ∧ out.1 = irs.length ∧
      out.2.2.length = irs.length := by
  obtain ⟨out, hout, hlen, hrc⟩ := batchGo_executes_all ctx spans irs 0 hops
  refine ⟨out, ?_, hlen, hrc⟩
  have hguard : ¬(irs.length = 0 ∨ irs.length > KNHK_NROWS) := by
    simp only [KNHK_NROWS, not_or]
    omega
  unfold knhk_eval_batch8
  rw [if_neg hguard]
  exact hout

/-- C7 witness: a two-descriptor batch, an ASK_SP whose logical result is
false on the all-zero context and a CONSTRUCT8 without output buffers. -/
theorem C7_batch8_counts_and_receipts_all_witness :
    ∃ out, knhk_eval_batch8 ctxAligned [irAskSp, irConstruct8] (fun _ => 0) =
      some out ∧ out.1 = [irAskSp, irConstruct8].length ∧
      out.2.2.length = [irAskSp, irConstruct8].length :=
  C7_batch8_counts_and_receipts_all ctxAligned [irAskSp, irConstruct8]
    (fun _ => 0) (by decide) (by decide) (by decide)

/-! ## Ring lemmas -/

/-- Equality of the stored data of one physical slot of two ring states. -/
def slotEq (r1 r2 : knhk_delta_ring) (x : Nat) : Prop :=
  r1.S x = r2.S x ∧ r1.P x = r2.P x ∧ r1.O x = r2.O x ∧
  r1.cycle_ids x = r2.cycle_ids x ∧ r1.flags x = r2.flags x

/-- The write loop touches neither the cursors nor the size. -/
theorem ringWriteSlots_cursors (base mask : Nat) (S P O : Nat → Nat)
    (cycle_id : Nat) : ∀ (n : Nat) (r : knhk_delta_ring),
    (ringWriteSlots base mask S P O cycle_id n r).size = r.size ∧
    (ringWriteSlots base mask S P O cycle_id n r).write_idx = r.write_idx ∧
    (ringWriteSlots base mask S P O cycle_id n r).read_idx = r.read_idx := by
  intro n
  induction n with
  | zero => exact fun r => ⟨rfl, rfl, rfl⟩
  | succ m ih =>
    intro r
    obtain ⟨h1, h2, h3⟩ := ih r
    exact ⟨h1, h2, h3⟩

/-- A physical slot distinct from every written index keeps its data. -/
theorem ringWriteSlots_slot_preserve (base mask : Nat) (S P O : Nat → Nat)
    (cycle_id : Nat) : ∀ (n : Nat) (r : knhk_delta_ring) (x : Nat),
    (∀ i, i < n → (base + i) &&& mask ≠ x) →
    slotEq (ringWriteSlots base mask S P O cycle_id n r) r x := by
  intro n
  induction n with
  | zero => exact fun r x _ => ⟨rfl, rfl, rfl, rfl, rfl⟩
  | succ m ih =>
    intro r x hx
    have hne : (base + m) &&& mask ≠ x := hx m (Nat.lt_succ_self m)
    obtain ⟨h1, h2, h3, h4, h5⟩ := ih r x fun i hi => hx i (Nat.lt_succ_of_lt hi)
    refine ⟨?_, ?_, ?_, ?_, ?_⟩ <;>
      simp [ringWriteSlots, Function.update_noteq (Ne.symm hne), h1, h2, h3, h4, h5]

/-- Distinct logical cursor positions less than one ring apart land in
distinct physical slots. -/
theorem mod_ne_of_window {size a b : Nat} (h1 : a < b) (h2 : b - a < size) :
    a % size ≠ b % size := by
  intro he
  have hd : size ∣ b - a := (Nat.modEq_iff_dvd' (Nat.le_of_lt h1)).mp he
  have := Nat.le_of_dvd (by omega) hd
  omega

/-- With a power-of-two size, the size-mask AND is reduction mod size. -/
theorem land_size_mask {size : Nat} (k : Nat) (hsz : size = 2 ^ k) (x : Nat) :
    x &&& (size - 1) = x % size := by
  subst hsz
  exact Nat.and_pow_two_sub_one_eq_mod x k

/-- The shape of a successful enqueue: result code 0, the slots written by
the loop, and the write cursor advanced by count. -/
theorem enqueue_success_eq (r : knhk_delta_ring) (tick : Nat)
    (S P O : Nat → Nat) (count cycle_id : Nat)
    (hg : ¬(count = 0 ∨ count > KNHK_NROWS ∨ tick ≥ 8))
    (hf : ¬(r.write_idx tick + count > r.read_idx tick + r.size)) :
    knhk_ring_enqueue_delta r tick S P O count cycle_id =
      (0, { ringWriteSlots (r.write_idx tick &&& (r.size - 1)) (r.size - 1)
              S P O cycle_id count r with
            write_idx := Function.update
              (ringWriteSlots (r.write_idx tick &&& (r.size - 1)) (r.size - 1)
                S P O cycle_id count r).write_idx tick
              (r.write_idx tick + count) }) := by
  unfold knhk_ring_enqueue_delta
  rw [if_neg hg, if_neg hf]

/-- knhk_ring_enqueue_delta preserves the cursor sanity invariant of its
tick segment. -/
theorem enqueue_preserves_inv (r : knhk_delta_ring) (tick : Nat)
    (S P O : Nat → Nat) (count cycle_id : Nat) (hinv : RingInv r tick) :
    RingInv (knhk_ring_enqueue_delta r tick S P O count cycle_id).2 tick := by
  by_cases hg : count = 0 ∨ count > KNHK_NROWS ∨ tick ≥ 8
  · unfold knhk_ring_enqueue_delta
    rw [if_pos hg]
    exact hinv
  · by_cases hf : r.write_idx tick + count > r.read_idx tick + r.size
    · unfold knhk_ring_enqueue_delta
      rw [if_neg hg, if_pos hf]
      exact hinv
    · rw [enqueue_success_eq r tick S P O count cycle_id hg hf]
      obtain ⟨hsz, hw, hr⟩ := ringWriteSlots_cursors
        (r.write_idx tick &&& (r.size - 1)) (r.size - 1) S P O cycle_id count r
      obtain ⟨hi1, hi2⟩ := hinv
      unfold RingInv
      simp only [hsz, hw, hr, Function.update_same]
      omega

/-- The dequeue read loop touches neither the cursors nor the size. -/
theorem deqGo_cursors (base mask : Nat) : ∀ (rem i : Nat) (st : DeqSt),
    (deqGo base mask i rem st).1.ring.size = st.ring.size ∧
    (deqGo base mask i rem st).1.ring.write_idx = st.ring.write_idx ∧
    (deqGo base mask i rem st).1.ring.read_idx = st.ring.read_idx := by
  intro rem
  induction rem with
  | zero => exact fun i st => ⟨rfl, rfl, rfl⟩
  | succ m ih =>
    intro i st
    unfold deqGo
    by_cases hv : st.ring.flags ((base + i) &&& mask) &&& KNHK_RING_FLAG_VALID = 0
    · rw [if_pos hv]; exact ⟨rfl, rfl, rfl⟩
    · rw [if_neg hv]
      exact ih (i + 1) _

/-- A slot whose flags word is already zero stays zero through the dequeue
read loop (the loop only clears flags). -/
theorem deqGo_flags_zero_stable (base mask : Nat) : ∀ (rem i : Nat)
    (st : DeqSt) (x : Nat), st.ring.flags x = 0 →
    (deqGo base mask i rem st).1.ring.flags x = 0 := by
  intro rem
  induction rem with
  | zero => exact fun i st x hx => hx
  | succ m ih =>
    intro i st x hx
    unfold deqGo
    by_cases hv : st.ring.flags ((base + i) &&& mask) &&& KNHK_RING_FLAG_VALID = 0
    · rw [if_pos hv]; exact hx
    · rw [if_neg hv]
      refine ih (i + 1) _ x ?_
      show Function.update st.ring.flags ((base + i) &&& mask) 0 x = 0
      by_cases he : (base + i) &&& mask = x
      · subst he; rw [Function.update_same]
      · rw [Function.update_noteq (Ne.symm he)]
        exact hx

/-- The consumed counter of the dequeue read loop starts at its input index
and advances at most rem steps. -/
theorem deqGo_consumed_bounds (base mask : Nat) : ∀ (rem i : Nat) (st : DeqSt),
    i ≤ (deqGo base mask i rem st).2 ∧ (deqGo base mask i rem st).2 ≤ i + rem := by
  intro rem
  induction rem with
  | zero => exact fun i st => ⟨Nat.le_refl i, Nat.le_of_eq rfl⟩
  | succ m ih =>
    intro i st
    unfold deqGo
    by_cases hv : st.ring.flags ((base + i) &&& mask) &&& KNHK_RING_FLAG_VALID = 0
    · rw [if_pos hv]; exact ⟨Nat.le_refl i, by omega⟩
    · rw [if_neg hv]
      refine ⟨Nat.le_trans (Nat.le_succ i) (ih (i + 1) _).1, ?_⟩
      exact Nat.le_trans (ih (i + 1) _).2 (Nat.le_of_eq (by omega))

/-- Every slot the dequeue read loop consumed has its flags word cleared in
the resulting ring. -/
theorem deqGo_clears_consumed (base mask : Nat) : ∀ (rem i : Nat) (st : DeqSt)
    (j : Nat), i ≤ j → j < (deqGo base mask i rem st).2 →
    (deqGo base mask i rem st).1.ring.flags ((base + j) &&& mask) = 0 := by
  intro rem
  induction rem with
  | zero =>
    intro i st j h1 h2
    simp only [deqGo] at h2
    omega
  | succ m ih =>
    intro i st j h1 h2
    unfold deqGo at h2 ⊢
    by_cases hv : st.ring.flags ((base + i) &&& mask) &&& KNHK_RING_FLAG_VALID = 0
    · rw [if_pos hv] at h2
      omega
    · rw [if_neg hv] at h2 ⊢
      rcases Nat.lt_or_ge j (i + 1) with hj | hj
      · have hji : j = i := by omega
        subst hji
        refine deqGo_flags_zero_stable base mask m (j + 1) _ _ ?_
        show Function.update st.ring.flags ((base + j) &&& mask) 0
          ((base + j) &&& mask) = 0
        rw [Function.update_same]
      · exact ih (i + 1) _ j hj h2

/-- The dequeue batch size never exceeds the available entries, the caller
capacity, or KNHK_NROWS, and it is their minimum. -/
theorem deqCount_bounds (available capacity : Nat) :
    deqCount available capacity = min (min available capacity) KNHK_NROWS ∧
    deqCount available capacity ≤ available ∧
    deqCount available capacity ≤ capacity ∧
    deqCount available capacity ≤ KNHK_NROWS := by
  unfold deqCount KNHK_NROWS
  dsimp only
  constructor
  · split <;> split <;> omega
  · constructor
    · split <;> split <;> omega
    · constructor
      · split <;> split <;> omega
      · split <;> split <;> omega

/-- The shape of a successful dequeue: the batch count, the outputs of the
read loop, and the read cursor advanced by the full count. -/
theorem dequeue_success_eq (r : knhk_delta_ring) (tick : Nat)
    (oS oP oO oC : Nat → Nat) (capacity : Nat)
    (hg : ¬(capacity = 0 ∨ tick ≥ 8))
    (he : ¬(r.read_idx tick ≥ r.write_idx tick)) :
    knhk_ring_dequeue_delta r tick oS oP oO oC capacity =
      (deqCount (r.write_idx tick - r.read_idx tick) capacity,
       (deqGo (r.read_idx tick &&& (r.size - 1)) (r.size - 1) 0
         (deqCount (r.write_idx tick - r.read_idx tick) capacity)
         { ring := r, oS := oS, oP := oP, oO := oO, oC := oC }).1.oS,
       (deqGo (r.read_idx tick &&& (r.size - 1)) (r.size - 1) 0
         (deqCount (r.write_idx tick - r.read_idx tick) capacity)
         { ring := r, oS := oS, oP := oP, oO := oO, oC := oC }).1.oP,
       (deqGo (r.read_idx tick &&& (r.size - 1)) (r.size - 1) 0
         (deqCount (r.write_idx tick - r.read_idx tick) capacity)
         { ring := r, oS := oS, oP := oP, oO := oO, oC := oC }).1.oO,
       (deqGo (r.read_idx tick &&& (r.size - 1)) (r.size - 1) 0
         (deqCount (r.write_idx tick - r.read_idx tick) capacity)
         { ring := r, oS := oS, oP := oP, oO := oO, oC := oC }).1.oC,
       { (deqGo (r.read_idx tick &&& (r.size - 1)) (r.size - 1) 0
           (deqCount (r.write_idx tick - r.read_idx tick) capacity)
           { ring := r, oS := oS, oP := oP, oO := oO, oC := oC }).1.ring with
         read_idx := Function.update
           (deqGo (r.read_idx tick &&& (r.size - 1)) (r.size - 1) 0
             (deqCount (r.write_idx tick - r.read_idx tick) capacity)
             { ring := r, oS := oS, oP := oP, oO := oO, oC := oC }).1.ring.read_idx
           tick (r.read_idx tick +
             deqCount (r.write_idx tick - r.read_idx tick) capacity) }) := by
  unfold knhk_ring_dequeue_delta
  rw [if_neg hg, if_neg he]

/-- knhk_ring_dequeue_delta preserves the cursor sanity invariant of its
tick segment. -/
theorem dequeue_preserves_inv (r : knhk_delta_ring) (tick : Nat)
    (oS oP oO oC : Nat → Nat) (capacity : Nat) (hinv : RingInv r tick) :
    RingInv (knhk_ring_dequeue_delta r tick oS oP oO oC
      capacity).2.2.2.2.2 tick := by
  by_cases hg : capacity = 0 ∨ tick ≥ 8
  · unfold knhk_ring_dequeue_delta
    rw [if_pos hg]
    exact hinv
  · by_cases he : r.read_idx tick ≥ r.write_idx tick
    · unfold knhk_ring_dequeue_delta
      rw [if_neg hg, if_pos he]
      exact hinv
    · rw [dequeue_success_eq r tick oS oP oO oC capacity hg he]
      obtain ⟨hsz, hw, hr⟩ := deqGo_cursors (r.read_idx tick &&& (r.size - 1))
        (r.size - 1)
        (deqCount (r.write_idx tick - r.read_idx tick) capacity) 0
        { ring := r, oS := oS, oP := oP, oO := oO, oC := oC }
      obtain ⟨-, hca, -, -⟩ :=
        deqCount_bounds (r.write_idx tick - r.read_idx tick) capacity
      obtain ⟨hi1, hi2⟩ := hinv
      unfold RingInv
      simp only [hsz, hw, hr, Function.update_same]
      omega

/-- Both ring calls preserve the cursor invariant, hence so does every
sequence of calls against the tick segment. -/
theorem ringRun_preserves_inv (tick : Nat) :
    ∀ (ops : List RingOp) (r : knhk_delta_ring), RingInv r tick →
    RingInv (ringRun tick r ops) tick := by
  intro ops
  induction ops with
  | nil => exact fun r h => h
  | cons op rest ih =>
    intro r h
    refine ih _ ?_
    cases op with
    | enq S P O count cycle_id => exact enqueue_preserves_inv r tick S P O count cycle_id h
    | deq capacity => exact dequeue_preserves_inv r tick _ _ _ _ capacity h

/-! ## C2: enqueue reservation rollback and the no-overwrite discipline -/

/-- C2, amended to the bound the code enforces. On a power-of-two ring with
sane cursors, for 1 ≤ count ≤ 8 and a valid tick: an enqueue whose
reservation would exceed read_cursor + capacity (the full ring size - not
capacity / 8) rolls its fetch-and-add back, reports the ring-full code -1
and leaves the ring unchanged; a within-bound enqueue succeeds and leaves
every unread slot (logical positions read_cursor ≤ j < write_cursor)
untouched; and the cursor-sanity invariant survives every sequence of
enqueue / dequeue calls against the tick segment. -/
theorem C2_enqueue_rollback_no_overwrite (r : knhk_delta_ring) (k tick : Nat)
    (hsz : r.size = 2 ^ k) (htick : tick < 8) (S P O : Nat → Nat)
    (count cycle_id : Nat) (hc1 : 1 ≤ count) (hc8 : count ≤ 8)
    (hinv : RingInv r tick) :
    (r.write_idx tick + count > r.read_idx tick + r.size →
      knhk_ring_enqueue_delta r tick S P O count cycle_id = (-1, r)) ∧
    (r.write_idx tick + count ≤ r.read_idx tick + r.size →
      (knhk_ring_enqueue_delta r tick S P O count cycle_id).1 = 0 ∧
      ∀ j, r.read_idx tick ≤ j → j < r.write_idx tick →
        slotEq (knhk_ring_enqueue_delta r tick S P O count cycle_id).2 r
          (j % r.size)) ∧
    (∀ ops : List RingOp, RingInv (ringRun tick r ops) tick) := by
  have hg : ¬(count = 0 ∨ count > KNHK_NROWS ∨ tick ≥ 8) := by
    simp only [KNHK_NROWS, not_or]
    omega
  refine ⟨?_, ?_, fun ops => ringRun_preserves_inv tick ops r hinv⟩
  · intro hf
    unfold knhk_ring_enqueue_delta
    rw [if_neg hg, if_pos hf]
  · intro hle
    have hf : ¬(r.write_idx tick + count > r.read_idx tick + r.size) := by omega
    rw [enqueue_success_eq r tick S P O count cycle_id hg hf]
    refine ⟨rfl, ?_⟩
    intro j hj1 hj2
    have hpos : 0 < r.size := by
      rw [hsz]
      exact Nat.pos_pow_of_pos k (by omega)
    refine ringWriteSlots_slot_preserve (r.write_idx tick &&& (r.size - 1))
      (r.size - 1) S P O cycle_id count r (j % r.size) ?_
    intro i hi
    have hidx : (r.write_idx tick &&& (r.size - 1)) + i &&& (r.size - 1) =
        (r.write_idx tick + i) % r.size := by
      rw [land_size_mask k hsz, land_size_mask k hsz, Nat.mod_add_mod]
    rw [hidx]
    exact Ne.symm (mod_ne_of_window (by omega) (by omega))

/-- The ring state knhk_ring_init_delta builds for capacity 8. -/
def ringEx : knhk_delta_ring :=
  { size := 8, write_idx := fun _ => 0, read_idx := fun _ => 0,
    S := fun _ => 0, P := fun _ => 0, O := fun _ => 0,
    cycle_ids := fun _ => 0, flags := fun _ => 0 }

/-- C2 counterexample to the claim as stated: on the freshly initialised
capacity-8 ring (segment_size = capacity / 8 = 1), an enqueue of 2 rows at
tick 0 reserves past read_cursor + segment_size, yet the code reports
success (0), not the ring-full error: the overflow check compares against
read_cursor + capacity, not read_cursor + capacity / 8. -/
theorem C2_counterexample_segment_bound :
    knhk_ring_init_delta 8 = some ringEx ∧
    ringEx.size / 8 = 1 ∧
    ringEx.write_idx 0 + 2 > ringEx.read_idx 0 + ringEx.size / 8 ∧
    (knhk_ring_enqueue_delta ringEx 0 (fun _ => 1) (fun _ => 2) (fun _ => 3)
      2 0).1 = 0 := by
  refine ⟨rfl, rfl, by decide, by decide⟩

/-- C2 witness: a single-row enqueue into the fresh capacity-8 ring. -/
theorem C2_enqueue_rollback_no_overwrite_witness :
    RingInv ringEx 0 ∧
    ((ringEx.write_idx 0 + 1 > ringEx.read_idx 0 + ringEx.size →
      knhk_ring_enqueue_delta ringEx 0 (fun _ => 1) (fun _ => 2) (fun _ => 3)
        1 0 = (-1, ringEx)) ∧
    (ringEx.write_idx 0 + 1 ≤ ringEx.read_idx 0 + ringEx.size →
      (knhk_ring_enqueue_delta ringEx 0 (fun _ => 1) (fun _ => 2) (fun _ => 3)
        1 0).1 = 0 ∧
      ∀ j, ringEx.read_idx 0 ≤ j → j < ringEx.write_idx 0 →
        slotEq (knhk_ring_enqueue_delta ringEx 0 (fun _ => 1) (fun _ => 2)
          (fun _ => 3) 1 0).2 ringEx (j % ringEx.size)) ∧
    (∀ ops : List RingOp, RingInv (ringRun 0 ringEx ops) 0)) :=
  ⟨⟨by decide, by decide⟩,
   C2_enqueue_rollback_no_overwrite ringEx 3 0 rfl (by decide)
     (fun _ => 1) (fun _ => 2) (fun _ => 3) 1 0 (by decide) (by decide)
     ⟨by decide, by decide⟩⟩

/-! ## C5: dequeue batch size, flag clearing and cursor advance -/

/-- C5, amended to what the code does with the read cursor. On a non-empty
tick segment with capacity ≥ 1, knhk_ring_dequeue_delta returns exactly
min(write - read, capacity, 8) - so never more than that bound; its read
loop consumes at most that many slots, clearing the VALID flag of every
consumed slot and stopping at the first invalid one; but the read cursor
advances by the full returned count even when the loop stopped early, not
by the number of entries that were actually valid. -/
theorem C5_dequeue_count_and_cursor (r : knhk_delta_ring) (tick : Nat)
    (oS oP oO oC : Nat → Nat) (capacity : Nat) (hcap : 1 ≤ capacity)
    (htick : tick < 8) (hne : r.read_idx tick < r.write_idx tick) :
    (knhk_ring_dequeue_delta r tick oS oP oO oC capacity).1 =
      min (min (r.write_idx tick - r.read_idx tick) capacity) KNHK_NROWS ∧
    (deqGo (r.read_idx tick &&& (r.size - 1)) (r.size - 1) 0
        (deqCount (r.write_idx tick - r.read_idx tick) capacity)
        { ring := r, oS := oS, oP := oP, oO := oO, oC := oC }).2 ≤
      deqCount (r.write_idx tick - r.read_idx tick) capacity ∧
    (knhk_ring_dequeue_delta r tick oS oP oO oC capacity).2.2.2.2.2.read_idx
        tick =
      r.read_idx tick + deqCount (r.write_idx tick - r.read_idx tick) capacity ∧
    (∀ j, j < (deqGo (r.read_idx tick &&& (r.size - 1)) (r.size - 1) 0
        (deqCount (r.write_idx tick - r.read_idx tick) capacity)
        { ring := r, oS := oS, oP := oP, oO := oO, oC := oC }).2 →
      (knhk_ring_dequeue_delta r tick oS oP oO oC
        capacity).2.2.2.2.2.flags
        ((r.read_idx tick &&& (r.size - 1)) + j &&& (r.size - 1)) = 0) := by
  have hg : ¬(capacity = 0 ∨ tick ≥ 8) := by
    simp only [not_or]
    omega
  have hge : ¬(r.read_idx tick ≥ r.write_idx tick) := by omega
  rw [dequeue_success_eq r tick oS oP oO oC capacity hg hge]
  refine ⟨(deqCount_bounds _ _).1, ?_, ?_, ?_⟩
  · simpa using (deqGo_consumed_bounds (r.read_idx tick &&& (r.size - 1))
      (r.size - 1) (deqCount (r.write_idx tick - r.read_idx tick) capacity) 0
      { ring := r, oS := oS, oP := oP, oO := oO, oC := oC }).2
  · show Function.update _ tick _ tick = _
    rw [Function.update_same]
  · intro j hj
    exact deqGo_clears_consumed (r.read_idx tick &&& (r.size - 1))
      (r.size - 1) (deqCount (r.write_idx tick - r.read_idx tick) capacity) 0
      { ring := r, oS := oS, oP := oP, oO := oO, oC := oC } j (Nat.zero_le j) hj

/-- The ring after enqueuing 2 rows at tick 0 into the fresh ring. -/
def ringC5a : knhk_delta_ring :=
  (knhk_ring_enqueue_delta ringEx 0 (fun i => 10 + i) (fun _ => 7)
    (fun _ => 9) 2 0).2

/-- ringC5a after enqueuing 1 row at tick 1 (the segments share the slot
array, so this lands in physical slot 0 as well). -/
def ringC5b : knhk_delta_ring :=
  (knhk_ring_enqueue_delta ringC5a 1 (fun _ => 1) (fun _ => 2) (fun _ => 3)
    1 0).2

/-- ringC5b after dequeuing tick 1, which clears the VALID flag of the
shared physical slot 0. -/
def ringC5c : knhk_delta_ring :=
  (knhk_ring_dequeue_delta ringC5b 1 (fun _ => 0) (fun _ => 0) (fun _ => 0)
    (fun _ => 0) 8).2.2.2.2.2

/-- C5 counterexample to the claim as stated: ringC5c - reached through
enqueue / dequeue calls alone - has a non-empty tick-0 segment (read 0,
write 2) whose first slot is invalid and whose second still holds unread
VALID data; dequeue at tick 0 consumes 0 valid entries, yet returns 2 and
advances the read cursor by 2, past the unread valid slot, instead of
stopping at the first invalid entry. -/
theorem C5_counterexample_cursor_overrun :
    ringC5c.read_idx 0 = 0 ∧ ringC5c.write_idx 0 = 2 ∧
    ringC5c.flags 0 &&& KNHK_RING_FLAG_VALID = 0 ∧
    ringC5c.flags 1 &&& KNHK_RING_FLAG_VALID = KNHK_RING_FLAG_VALID ∧
    (knhk_ring_dequeue_delta ringC5c 0 (fun _ => 0) (fun _ => 0) (fun _ => 0)
      (fun _ => 0) 8).1 = 2 ∧
    (knhk_ring_dequeue_delta ringC5c 0 (fun _ => 0) (fun _ => 0) (fun _ => 0)
      (fun _ => 0) 8).2.2.2.2.2.read_idx 0 = 2 ∧
    (knhk_ring_dequeue_delta ringC5c 0 (fun _ => 0) (fun _ => 0) (fun _ => 0)
      (fun _ => 0) 8).2.2.2.2.2.flags 1 &&& KNHK_RING_FLAG_VALID =
      KNHK_RING_FLAG_VALID := by
  decide

/-- C5 witness: dequeue of the two freshly enqueued rows at tick 0. -/
theorem C5_dequeue_count_and_cursor_witness :
    (ringC5a.read_idx 0 < ringC5a.write_idx 0) ∧
    ((knhk_ring_dequeue_delta ringC5a 0 (fun _ => 0) (fun _ => 0) (fun _ => 0)
        (fun _ => 0) 8).1 =
      min (min (ringC5a.write_idx 0 - ringC5a.read_idx 0) 8) KNHK_NROWS ∧
    (deqGo (ringC5a.read_idx 0 &&& (ringC5a.size - 1)) (ringC5a.size - 1) 0
        (deqCount (ringC5a.write_idx 0 - ringC5a.read_idx 0) 8)
        { ring := ringC5a, oS := fun _ => 0, oP := fun _ => 0,
          oO := fun _ => 0, oC := fun _ => 0 }).2 ≤
      deqCount (ringC5a.write_idx 0 - ringC5a.read_idx 0) 8 ∧
    (knhk_ring_dequeue_delta ringC5a 0 (fun _ => 0) (fun _ => 0) (fun _ => 0)
        (fun _ => 0) 8).2.2.2.2.2.read_idx 0 =
      ringC5a.read_idx 0 + deqCount (ringC5a.write_idx 0 - ringC5a.read_idx 0) 8 ∧
    (∀ j, j < (deqGo (ringC5a.read_idx 0 &&& (ringC5a.size - 1))
        (ringC5a.size - 1) 0
        (deqCount (ringC5a.write_idx 0 - ringC5a.read_idx 0) 8)
        { ring := ringC5a, oS := fun _ => 0, oP := fun _ => 0,
          oO := fun _ => 0, oC := fun _ => 0 }).2 →
      (knhk_ring_dequeue_delta ringC5a 0 (fun _ => 0) (fun _ => 0)
        (fun _ => 0) (fun _ => 0) 8).2.2.2.2.2.flags
        ((ringC5a.read_idx 0 &&& (ringC5a.size - 1)) + j &&&
          (ringC5a.size - 1)) = 0)) :=
  ⟨by decide,
   C5_dequeue_count_and_cursor ringC5a 0 (fun _ => 0) (fun _ => 0)
     (fun _ => 0) (fun _ => 0) 8 (by decide) (by decide) (by decide)⟩

end KNHK
